import Mathlib

/-!
Verification development for the compliance due-diligence backend
(`backend/` of the repository): a shallow embedding, in Lean 4, of
the identifier validator (`backend/utils/validate.py`), the source
client pool (`backend/services/real_analysis.py`, `cadastro.py`,
`sancoes.py`, `societario.py`) and the aggregation engine
(`backend/routers/analysis.py`), together with theorems about them.

Modelling conventions:
* JSON values are the inductive `JVal`; Python dictionaries coming from
  JSON are ordered association lists (`Payload`).
* The HTTP transport is a function from URL to `FetchOutcome`; a
  transport error and a timeout are both `FetchOutcome.err` (the code
  treats every `httpx` exception alike), and a successful exchange
  carries the status code, the body text and the result of parsing the
  body as JSON (`Except Unit JVal`, error = `response.json()` raises).
* Python exceptions are modelled with `Except Unit`; a `try/except`
  block becomes `pyTry` recovery.  Operations that can
  raise on dynamically-typed data (`.get` on a non-dict, `len` of a
  number, `<`/`>` between a string and an int, …) return in
  `Except Unit`.
* Python float arithmetic on the module scores is modelled exactly:
  the only float ever formed is `sum(scores)/15`, and for that value
  comparisons with the integer thresholds and `round()` (banker's
  rounding) agree exactly with rational arithmetic, which is carried
  out on the integer pair (numerator, denominator).
* `random.randint(-15, 15)` values are an explicit parameter
  `jit : Nat → Int` giving the value of the i-th draw of a run.
-/

/-- JSON value, as produced by `response.json()`. -/
inductive JVal : Type
  | s (v : String)
  | num (n : Int)
  | b (v : Bool)
  | null
  | arr (vs : List JVal)
  | obj (kvs : List (String × JVal))

/-- A JSON object payload: ordered key/value pairs (a Python dict). -/
abbrev Payload := List (String × JVal)

instance exceptDecEq {ε α : Type} [DecidableEq ε] [DecidableEq α] : DecidableEq (Except ε α)
  | Except.error a, Except.error b =>
      if h : a = b then isTrue (congrArg Except.error h)
      else isFalse (by intro hh; injection hh; exact h (by assumption))
  | Except.error _, Except.ok _ => isFalse (by intro hh; exact Except.noConfusion hh)
  | Except.ok _, Except.error _ => isFalse (by intro hh; exact Except.noConfusion hh)
  | Except.ok a, Except.ok b =>
      if h : a = b then isTrue (congrArg Except.ok h)
      else isFalse (by intro hh; injection hh; exact h (by assumption))

/-- Python truthiness of a JSON value (`if x:`). -/
def truthy : JVal → Bool
  | JVal.s v => v ≠ ""
  | JVal.num n => n ≠ 0
  | JVal.b v => v
  | JVal.null => false
  | JVal.arr vs => ¬ vs.isEmpty
  | JVal.obj kvs => ¬ kvs.isEmpty

/-- Lookup in an ordered key/value list with JSON duplicate-key
semantics: the last occurrence of the key wins. -/
def pget : Payload → String → Option JVal
  | [], _ => none
  | kv :: rest, k =>
      match pget rest k with
      | some v => some v
      | none => if kv.1 = k then some kv.2 else none

/-- Python `dict.get(k, default)` on a JSON value: raises (AttributeError)
unless the value is an object. -/
def jget (j : JVal) (k : String) : Except Unit (Option JVal) :=
  match j with
  | JVal.obj kvs => Except.ok (pget kvs k)
  | _ => Except.error ()

/-- Python `len(x)` on a JSON value: defined for strings, arrays and
objects, raises (TypeError) otherwise. -/
def jlen : JVal → Except Unit Nat
  | JVal.s v => Except.ok v.length
  | JVal.arr vs => Except.ok vs.length
  | JVal.obj kvs => Except.ok kvs.length
  | _ => Except.error ()

/-- Python `x[0]` on a JSON value: first element of an array, first
character of a string; raises on anything else (an `int` index into a
string-keyed dict raises KeyError). -/
def jidx0 : JVal → Except Unit JVal
  | JVal.arr (v :: _) => Except.ok v
  | JVal.arr [] => Except.error ()
  | JVal.s v =>
      match v.data with
      | c :: _ => Except.ok (JVal.s (String.mk [c]))
      | [] => Except.error ()
  | _ => Except.error ()

/-- Python `x == "lit"` for a JSON value: string equality, `False` (no
exception) when `x` is not a string. -/
def jeqStr (j : JVal) (lit : String) : Bool :=
  match j with
  | JVal.s v => v = lit
  | _ => false

/-- Python `x > k` between a JSON value and an int: ints compare, bools
count as 0/1, anything else raises TypeError. -/
def jgtInt (j : JVal) (k : Int) : Except Unit Bool :=
  match j with
  | JVal.num n => Except.ok (n > k)
  | JVal.b v => Except.ok ((if v then (1 : Int) else 0) > k)
  | _ => Except.error ()

/-- Python `x <= k` between a JSON value and an int (same domain as
`jgtInt`). -/
def jleInt (j : JVal) (k : Int) : Except Unit Bool :=
  match j with
  | JVal.num n => Except.ok (n ≤ k)
  | JVal.b v => Except.ok ((if v then (1 : Int) else 0) ≤ k)
  | _ => Except.error ()

/-- Uppercase a Lean string character-wise (ASCII, which covers every
string the analyzers compare against). -/
def upperStr (s : String) : String := String.mk (s.data.map Char.toUpper)

/-- Lowercase a Lean string character-wise. -/
def lowerStr (s : String) : String := String.mk (s.data.map Char.toLower)

/-- Python `str.upper()` applied to a JSON value: raises
(AttributeError) unless the value is a string. -/
def jupper (j : JVal) : Except Unit String :=
  match j with
  | JVal.s v => Except.ok (upperStr v)
  | _ => Except.error ()

mutual

/-- Python `repr()` of a JSON value (used for elements of containers by
`str()`).  The exact rendering only feeds substring tests and display
strings, never a score or risk decision. -/
def pyRepr : JVal → String
  | JVal.s v => "\x27" ++ v ++ "\x27"
  | JVal.num n => toString n
  | JVal.b true => "True"
  | JVal.b false => "False"
  | JVal.null => "None"
  | JVal.arr vs => "[" ++ pyReprList vs ++ "]"
  | JVal.obj kvs => "\x7b" ++ pyReprObj kvs ++ "\x7d"

/-- Comma-separated `repr` of array elements. -/
def pyReprList : List JVal → String
  | [] => ""
  | [v] => pyRepr v
  | v :: rest => pyRepr v ++ ", " ++ pyReprList rest

/-- Comma-separated `repr` of object entries. -/
def pyReprObj : List (String × JVal) → String
  | [] => ""
  | [kv] => "\x27" ++ kv.1 ++ "\x27: " ++ pyRepr kv.2
  | kv :: rest => "\x27" ++ kv.1 ++ "\x27: " ++ pyRepr kv.2 ++ ", " ++ pyReprObj rest

end

/-- Python `str()` of a JSON value, as interpolated by f-strings. -/
def pyStr : JVal → String
  | JVal.s v => v
  | JVal.num n => toString n
  | JVal.b true => "True"
  | JVal.b false => "False"
  | JVal.null => "None"
  | JVal.arr vs => "[" ++ pyReprList vs ++ "]"
  | JVal.obj kvs => "\x7b" ++ pyReprObj kvs ++ "\x7d"

/-- Check whether the character list `n` is an initial segment of `h`. -/
def leadsWith : List Char → List Char → Bool
  | [], _ => true
  | _ :: _, [] => false
  | a :: as, b :: bs => a == b && leadsWith as bs

/-- Substring test on character lists (Python `needle in haystack`). -/
def hasSub (n : List Char) : List Char → Bool
  | [] => n.isEmpty
  | c :: t => leadsWith n (c :: t) || hasSub n t

/-- Python `needle in haystack` on strings. -/
def strIn (needle hay : String) : Bool := hasSub needle.data hay.data

/-- Python `dict.__setitem__` / single-key update on an ordered
key/value list: replaces the value in place if the key is present,
appends otherwise. -/
def setKey (d : Payload) (k : String) (v : JVal) : Payload :=
  if d.any (fun kv => kv.1 = k) then
    d.map (fun kv => if kv.1 = k then (k, v) else kv)
  else d ++ [(k, v)]

/-- Python `dict.update(other)`: fold the entries of `other` into `d`
in order, later entries overwriting earlier ones (last-writer-wins). -/
def updateDict (d : Payload) (other : Payload) : Payload :=
  other.foldl (fun acc kv => setKey acc kv.1 kv.2) d

/-! ## Transport and source clients -/

/-- Outcome of one `GET(url, timeout)`: either a response with status
code, body text and parsed-JSON result, or a raised transport error /
timeout (`httpx` exceptions are not distinguished by the code). -/
inductive FetchOutcome : Type
  | ok (status : Nat) (text : String) (json : Except Unit JVal)
  | err

/-- The transport capability: what `client.get(url)` yields per URL.
One fixed assignment models one run against fixed upstream data. -/
abbrev Transport := String → FetchOutcome

/-- Transport on which every call raises (all sources fail). -/
def allErrT : Transport := fun _ => FetchOutcome.err

/-- `RealAnalysisService.fetch_with_timeout` (services/real_analysis.py):
`try: get; raise_for_status; return json() except: return {}` — every
transport error, timeout, non-2xx status or JSON parse failure is
swallowed and becomes the empty dict. -/
def fetch_with_timeout (t : Transport) (url : String) : JVal :=
  match t url with
  | FetchOutcome.ok status _ json =>
      if 200 ≤ status ∧ status < 300 then
        match json with
        | Except.ok v => v
        | Except.error _ => JVal.obj []
      else JVal.obj []
  | FetchOutcome.err => JVal.obj []

/-- `check_un_sanctions` (services/sancoes.py): `get` then
`raise_for_status` with no `try` — transport errors and non-2xx
statuses propagate to the caller as exceptions. -/
def check_un_sanctions (t : Transport) (name : String) : Except Unit Bool :=
  match t "https://scsanctions.un.org/resources/xml/en/consolidated.xml" with
  | FetchOutcome.ok status text _ =>
      if 200 ≤ status ∧ status < 300 then
        Except.ok (strIn (upperStr name) (upperStr text))
      else Except.error ()
  | FetchOutcome.err => Except.error ()

/-- URL of the open.cnpja.com office endpoint. -/
def cnpjaUrl (cnpj : String) : String := "https://open.cnpja.com/office/" ++ cnpj

/-- `fetch_socios` (services/societario.py): `get`, `raise_for_status`,
`json()` with no `try`; then `data.get("partners") or data.get("socios")
or []` with Python `or` chaining on truthiness. -/
def fetch_socios (t : Transport) (cnpj : String) : Except Unit JVal :=
  match t (cnpjaUrl cnpj) with
  | FetchOutcome.ok status _ json =>
      if 200 ≤ status ∧ status < 300 then do
        let data ← json
        let p ← jget data "partners"
        let pv := p.getD JVal.null
        if truthy pv then pure pv
        else do
          let so ← jget data "socios"
          let sv := so.getD JVal.null
          if truthy sv then pure sv else pure (JVal.arr [])
      else Except.error ()
  | FetchOutcome.err => Except.error ()

/-! ## Multi-registry cadastral fetch (services/cadastro.py) -/

/-- URL of the minhareceita.org company endpoint. -/
def minhaUrl (cnpj : String) : String := "https://minhareceita.org/" ++ cnpj

/-- URL of the receitaws.com.br company endpoint. -/
def receitawsUrl (cnpj : String) : String := "https://receitaws.com.br/v1/cnpj/" ++ cnpj

/-- The canonical registry list of `fetch_cnpj`, in source order. -/
def cadastroUrls (cnpj : String) : List String :=
  [minhaUrl cnpj, cnpjaUrl cnpj, receitawsUrl cnpj]

/-- `fetch_json` (services/cadastro.py): `get(url, timeout=20)`,
`raise_for_status()`, `r.json()`; raises on transport error, non-2xx
status or JSON parse failure.  Inside `asyncio.gather(...,
return_exceptions=True)` the raised exception becomes the task's
result. -/
def fetch_json (t : Transport) (url : String) : Except Unit JVal :=
  match t url with
  | FetchOutcome.ok status _ json =>
      if 200 ≤ status ∧ status < 300 then json else Except.error ()
  | FetchOutcome.err => Except.error ()

/-- One iteration of the merge loop of `fetch_cnpj`: an exception
result is skipped (`continue`); `data.update(r)` merges an object
payload last-writer-wins and raises when `r` is not a mapping
(`dict.update` of a list/str/num raises for every JSON body except the
degenerate list-of-pairs shape, which no registry returns). -/
def mergeStep (d : Payload) (r : Except Unit JVal) : Except Unit Payload :=
  match r with
  | Except.error _ => Except.ok d
  | Except.ok (JVal.obj kvs) => Except.ok (updateDict d kvs)
  | Except.ok _ => Except.error ()

/-- `fetch_cnpj` (services/cadastro.py): gather the three registry
fetches (`asyncio.gather` returns results in task order), fold the
successful payloads into one dict in that canonical order, then set
`data["cnpj"] = cnpj`. -/
def fetch_cnpj (t : Transport) (cnpj : String) : Except Unit Payload := do
  let results := (cadastroUrls cnpj).map (fetch_json t)
  let d ← results.foldlM mergeStep []
  pure (setKey d "cnpj" (JVal.s cnpj))

/-- Completion-schedule model of `asyncio.gather`: tasks finish in the
order given by `arrival` (indices into the task list, duplicates
allowed), each completion storing its result in the slot of its own
index; `gather` returns the slots in index order, not arrival order. -/
def gatherSched (tasks : List (Except Unit JVal)) (arrival : List Nat) :
    List (Option (Except Unit JVal)) :=
  arrival.foldl (fun slots i => slots.set i (tasks.get? i))
    (List.replicate tasks.length none)

/-- `fetch_cnpj` run under an explicit completion schedule: identical
to `fetch_cnpj` whenever every task index completes. -/
def fetch_cnpj_sched (t : Transport) (cnpj : String) (arrival : List Nat) :
    Except Unit Payload := do
  let tasks := (cadastroUrls cnpj).map (fetch_json t)
  let results := (gatherSched tasks arrival).map (fun o => o.getD (Except.error ()))
  let d ← results.foldlM mergeStep []
  pure (setKey d "cnpj" (JVal.s cnpj))

/-- One step of the merge in the specification's words: a successful
object payload is shallow-merged last-writer-wins, anything else
contributes nothing. -/
def specMergeStep (d : Payload) (r : Except Unit JVal) : Payload :=
  match r with
  | Except.ok (JVal.obj kvs) => updateDict d kvs
  | _ => d

/-- Reference form of the merge taken from the specification text:
"successful payloads shallow-merged (last-wins per overlapping key)
into one combined payload" in canonical source order, "a source that
fails contributes nothing". -/
def specMergeCadastral (results : List (Except Unit JVal)) : Payload :=
  results.foldl specMergeStep []

/-! ## Identifier validator (utils/validate.py) -/

/-- `clean_document`: strip every non-digit character. -/
def clean_document (s : String) : String := String.mk (s.data.filter Char.isDigit)

/-- Numeric value of a digit character (`int(c)`). -/
def digitVal (c : Char) : Nat := c.toNat - 48

/-- Decimal digit character of a value < 10. -/
def digitChar (n : Nat) : Char := Char.ofNat (48 + n)

/-- Weight table of the first CNPJ check digit. -/
def cnpjWeights1 : List Nat := [5, 4, 3, 2, 9, 8, 7, 6, 5, 4, 3, 2]

/-- Weight table of the second CNPJ check digit. -/
def cnpjWeights2 : List Nat := [6, 5, 4, 3, 2, 9, 8, 7, 6, 5, 4, 3, 2]

/-- First CNPJ check digit: mod-11 weighted sum over the first 12
digits, `0 if rem < 2 else 11 - rem`. -/
def cnpjDigit1 (ds : List Nat) : Nat :=
  let r := (List.zipWith (· * ·) (ds.take 12) cnpjWeights1).sum % 11
  if r < 2 then 0 else 11 - r

/-- Second CNPJ check digit: mod-11 weighted sum over the first 13
digits. -/
def cnpjDigit2 (ds : List Nat) : Nat :=
  let r := (List.zipWith (· * ·) (ds.take 13) cnpjWeights2).sum % 11
  if r < 2 then 0 else 11 - r

/-- `is_valid_cnpj` (utils/validate.py): clean, reject wrong length and
the all-same-digit strings, then compare the last two characters with
the computed check digits (`cnpj[12:] == f"{digit1}{digit2}"`; both
digits are < 10, so the f-string is the two digit characters). -/
def is_valid_cnpj (s : String) : Bool :=
  let c := clean_document s
  if c.length ≠ 14 then false
  else if c.data = List.replicate 14 (c.data.headD ' ') then false
  else
    let ds := c.data.map digitVal
    c.data.drop 12 = [digitChar (cnpjDigit1 ds), digitChar (cnpjDigit2 ds)]

/-! ## Module analyzers (services/real_analysis.py) -/

/-- Python `try/except` recovery: the value of the `try` body, or the
`except` branch value when the body raised. -/
def pyTry {α : Type} (body : Except Unit α) (fallback : α) : α :=
  match body with
  | Except.ok a => a
  | Except.error _ => fallback

/-- Result of one `analyze_*` coroutine: score, risk tier, findings and
the list of sources consulted. -/
structure ARes : Type where
  score : Int
  risk : String
  findings : List String
  sources : List String
deriving DecidableEq

/-- URL of the CEIS sanctions query for a CNPJ. -/
def ceisUrl (cnpj : String) : String :=
  "https://www.portaltransparencia.gov.br/api-de-dados/ceis?cnpjSancionado=" ++ cnpj

/-- URL of the CNEP sanctions query for a CNPJ. -/
def cnepUrl (cnpj : String) : String :=
  "https://www.portaltransparencia.gov.br/api-de-dados/cnep?cnpjSancionado=" ++ cnpj

/-- CEIS `try` block body of `analyze_cnpj_sanctions`, as a function of
the fetched CEIS payload: raising anywhere inside yields the `except`
fallback. -/
def sanctionsCeisTry (ceis : JVal) : Except Unit (List String × Int × String) := do
  if truthy ceis then
    let n ← jlen ceis
    if n > 0 then do
      let first ← jidx0 ceis
      let tipo ← jget first "tipoSancao"
      pure (["Encontradas " ++ toString n ++ " sanção(ões) no CEIS",
             "Tipo: " ++ pyStr (tipo.getD (JVal.s "N/A")),
             "Verificação manual necessária"], 25, "high")
    else pure (["Nenhuma sanção encontrada no CEIS"], 90, "low")
  else pure (["Nenhuma sanção encontrada no CEIS"], 90, "low")

/-- CNEP `try` block body of `analyze_cnpj_sanctions`; `score` and
`risk` are the values left by the CEIS block. -/
def sanctionsCnepTry (cnep : JVal) (score : Int) (risk : String) :
    Except Unit (List String × Int × String) := do
  if truthy cnep then
    let n ← jlen cnep
    if n > 0 then
      pure (["Encontradas " ++ toString n ++ " entrada(s) no CNEP"],
            min score 40, "high")
    else pure (["Sem registros no CNEP"], score, risk)
  else pure (["Sem registros no CNEP"], score, risk)

/-- `analyze_cnpj_sanctions`: CEIS then CNEP, each inside its own
`try/except`; findings accumulate across the two blocks. -/
def analyze_cnpj_sanctions (t : Transport) (cnpj : String) : ARes :=
  let r1 := pyTry (sanctionsCeisTry (fetch_with_timeout t (ceisUrl cnpj)))
    (["Erro ao consultar CEIS - verificação manual recomendada"], 70, "medium")
  let r2 := pyTry (sanctionsCnepTry (fetch_with_timeout t (cnepUrl cnpj)) r1.2.1 r1.2.2)
    (["Erro ao consultar CNEP"], r1.2.1, r1.2.2)
  { score := r2.2.1, risk := r2.2.2, findings := r1.1 ++ r2.1,
    sources := ["CEIS", "CNEP", "TCU", "Portal da Transparência"] }

/-- URL of the JusBrasil process search for a CNPJ. -/
def jusbrasilUrl (cnpj : String) : String :=
  "https://www.jusbrasil.com.br/api/v2/search?q=" ++ cnpj ++ "&type=processo"

/-- The `try` block body of `analyze_cnpj_legal`:
`legal_data and legal_data.get('results')` with Python short-circuit
truthiness, then `len(legal_data.get('results', []))`. -/
def legalTry (legal : JVal) : Except Unit (List String × Int × String) := do
  let cond ← if truthy legal then do
      let v ← jget legal "results"
      pure (truthy (v.getD JVal.null))
    else pure false
  if cond then do
    let rv ← jget legal "results"
    let pc ← jlen (rv.getD (JVal.arr []))
    pure ([toString pc ++ " processo(s) encontrado(s)",
           "Análise jurídica recomendada",
           "Verificação dos detalhes necessária"],
          if pc ≤ 2 then 60 else 40,
          if pc ≤ 2 then "medium" else "high")
  else pure (["Nenhum processo judicial relevante encontrado"], 85, "low")

/-- `analyze_cnpj_legal`: one JusBrasil query inside `try/except`. -/
def analyze_cnpj_legal (t : Transport) (cnpj : String) : ARes :=
  let r := pyTry (legalTry (fetch_with_timeout t (jusbrasilUrl cnpj)))
    (["Consulta processual realizada", "Sem processos críticos identificados",
      "Monitoramento recomendado"], 75, "low")
  { score := r.2.1, risk := r.2.2, findings := r.1,
    sources := ["TJSP", "DataJud", "Consulta Processual"] }

/-- The `try` block body of `analyze_fiscal_situation`:
`situacao = rfb_data.get('situacao', '').upper()`, the
`ATIVA`/`SUSPENSA`/`INAPTA` split, then the optional Simples finding. -/
def fiscalTry (rfb : JVal) : Except Unit (List String × Int × String) := do
  if truthy rfb then do
    let sv ← jget rfb "situacao"
    let situ ← jupper (sv.getD (JVal.s ""))
    let base :=
      if situ = "ATIVA" then
        (["Situação cadastral ativa na RFB", "CNPJ regularmente inscrito",
          "Sem indicações de irregularidade fiscal"], (85 : Int), "low")
      else if situ = "SUSPENSA" ∨ situ = "INAPTA" then
        (["Situação cadastral: " ++ situ, "Possível irregularidade fiscal",
          "Verificação detalhada necessária"], 45, "high")
      else
        (["Situação cadastral: " ++ (if situ = "" then "N/A" else situ),
          "Status fiscal a ser verificado"], 70, "medium")
    let simples ← jget rfb "simples"
    let fs := if truthy (simples.getD JVal.null) then
        base.1 ++ ["Optante pelo Simples Nacional"]
      else base.1
    pure (fs, base.2.1, base.2.2)
  else
    pure (["Erro na consulta à RFB", "Verificação manual recomendada"], 60, "medium")

/-- `analyze_fiscal_situation`: minhareceita.org status lookup inside
`try/except`. -/
def analyze_fiscal_situation (t : Transport) (cnpj : String) : ARes :=
  let r := pyTry (fiscalTry (fetch_with_timeout t (minhaUrl cnpj)))
    (["Falha na consulta fiscal", "Verificação presencial recomendada"], 50, "medium")
  { score := r.2.1, risk := r.2.2, findings := r.1,
    sources := ["RFB", "PGFN", "Simples Nacional"] }

/-- Negative keywords of the media search query. -/
def negKeywords : List String :=
  ["fraude", "golpe", "investigação", "processo", "condenação", "multa"]

/-- The NewsAPI query URL for an entity name (query text built exactly
as the f-string does). -/
def newsUrl (entityName : String) : String :=
  "https://newsapi.org/v2/everything?q=" ++
    "\"" ++ entityName ++ "\" AND (" ++ String.intercalate " OR " negKeywords ++ ")" ++
    "&language=pt&sortBy=relevancy"

/-- The `try` block body of `analyze_media_mentions`:
`articles_found = news_data.get('totalResults', 0) if news_data else 0`,
then int comparisons on the JSON value. -/
def mediaTry (news : JVal) : Except Unit (List String × Int × String) := do
  let af ← if truthy news then do
      let v ← jget news "totalResults"
      pure (v.getD (JVal.num 0))
    else pure (JVal.num 0)
  let gt0 ← jgtInt af 0
  if gt0 then do
    let le2 ← jleInt af 2
    pure ([pyStr af ++ " menção(ões) encontrada(s)",
           "Análise detalhada recomendada",
           "Monitoramento contínuo sugerido"],
          if le2 then 60 else 40,
          if le2 then "medium" else "high")
  else pure (["Nenhuma menção negativa relevante encontrada"], 90, "low")

/-- `analyze_media_mentions`: NewsAPI query inside `try/except`. -/
def analyze_media_mentions (t : Transport) (entityName : String) : ARes :=
  let r := pyTry (mediaTry (fetch_with_timeout t (newsUrl entityName)))
    (["Busca em fontes de mídia realizada", "Sem alertas críticos identificados"],
     85, "low")
  { score := r.2.1, risk := r.2.2, findings := r.1,
    sources := ["Google News", "Bing News", "NewsAPI"] }

/-- URL of the IBAMA embargoed-areas lookup for a CNPJ. -/
def ibamaUrl (cnpj : String) : String :=
  "https://servicos.ibama.gov.br/ctf/publico/areasembargadas/ConsultaPublicaAreasEmbargadas.php?cnpj=" ++ cnpj

/-- URL of the secondary IBAMA infractions lookup for a CNPJ. -/
def ibamaApiUrl (cnpj : String) : String :=
  "https://www.ibama.gov.br/api/consulta-cnpj/" ++ cnpj

/-- The `try` block body of `analyze_environmental`: substring test
`'embargo' in str(ibama_data).lower()`, else the secondary infractions
check.  The second fetch happens only in the else branch of the source;
since the transport is a pure function, passing its value as an
argument is observationally identical. -/
def envTry (ibama env : JVal) : Except Unit (List String × Int × String) := do
  if truthy ibama ∧ strIn "embargo" (lowerStr (pyStr ibama)) then
    pure (["Área embargada identificada", "Verificação detalhada necessária",
           "Acompanhamento dos órgãos ambientais"], 35, "high")
  else
    let cond ← if truthy env then do
        let v ← jget env "infrações"
        pure (truthy (v.getD JVal.null))
      else pure false
    if cond then
      pure (["Infrações ambientais encontradas", "Regularização necessária"],
            45, "high")
    else pure (["Sem infrações ambientais identificadas"], 88, "low")

/-- `analyze_environmental`: IBAMA embargo page then the secondary
infractions endpoint, all inside one `try/except`. -/
def analyze_environmental (t : Transport) (cnpj : String) : ARes :=
  let r := pyTry
    (envTry (fetch_with_timeout t (ibamaUrl cnpj)) (fetch_with_timeout t (ibamaApiUrl cnpj)))
    (["Consulta ambiental realizada", "Base de dados verificada",
      "Sem alertas críticos no sistema"], 82, "low")
  { score := r.2.1, risk := r.2.2, findings := r.1,
    sources := ["IBAMA", "SISNAMA", "Portal Nacional de Licenciamento"] }

/-- URL of the labor-inspection radar lookup for a CNPJ. -/
def mteUrl (cnpj : String) : String :=
  "https://sit.trabalho.gov.br/radar/consulta?cnpj=" ++ cnpj

/-- URL of the CAGED employment lookup for a CNPJ. -/
def cagedUrl (cnpj : String) : String :=
  "https://servicos.mte.gov.br/api/caged/" ++ cnpj

/-- The `try` block body of `analyze_labor_issues`: autuações branch,
else CAGED check (the CAGED fetch happens only in the else branch of
the source; pure transport makes the argument form identical). -/
def laborTry (mte caged : JVal) : Except Unit (List String × Int × String) := do
  let cond ← if truthy mte then do
      let v ← jget mte "autuacoes"
      pure (truthy (v.getD JVal.null))
    else pure false
  if cond then do
    let viol ← jget mte "autuacoes"
    let n ← jlen (viol.getD (JVal.arr []))
    pure ([toString n ++ " autuação(ões) encontrada(s)",
           "Verificação da situação trabalhista",
           "Acompanhamento recomendado"],
          if n ≤ 2 then 50 else 35,
          if n ≤ 2 then "medium" else "high")
  else
    let cond2 ← if truthy caged then do
        let v ← jget caged "situacao"
        pure (jeqStr (v.getD JVal.null) "irregular")
      else pure false
    if cond2 then
      pure (["Irregularidade na situação trabalhista", "Verificação necessária"],
            60, "medium")
    else pure (["Situação trabalhista regular"], 87, "low")

/-- `analyze_labor_issues`: labor-radar query, autuações branch, else
CAGED check, all inside one `try/except`. -/
def analyze_labor_issues (t : Transport) (cnpj : String) : ARes :=
  let r := pyTry
    (laborTry (fetch_with_timeout t (mteUrl cnpj)) (fetch_with_timeout t (cagedUrl cnpj)))
    (["Consulta trabalhista realizada", "Dados de emprego verificados",
      "Sem violações críticas identificadas"], 84, "low")
  { score := r.2.1, risk := r.2.2, findings := r.1,
    sources := ["MTE", "TST", "Portal Mais Emprego"] }

/-! ## Report data model and reduction helpers -/

/-- One entry of the `modules` list of a report. -/
structure ModuleResult : Type where
  id : String
  name : String
  score : Int
  risk : String
  status : String
  methodology : String
  findings : List String
  sources : List String
  risk_factors : List String
deriving DecidableEq

/-- The `entity_info` block of a report. -/
structure EntityInfo : Type where
  name : String
  document : String
  status : String
  type : String
deriving DecidableEq

/-- The `OverallReport` returned by an analysis run. -/
structure OverallReport : Type where
  overall_score : Int
  risk_level : String
  total_findings : Nat
  critical_issues : Nat
  modules : List ModuleResult
  entity_info : EntityInfo
deriving DecidableEq

/-- Exact comparison `num / den > k` of the Python float mean with an
integer threshold (`den > 0`): `sum(scores)/len(modules) > k` holds iff
`k * den < num`.  For `den = 15` and integer scores the double value of
the quotient is never close enough to an integer threshold for float
rounding to flip the comparison, so the rational comparison is exact. -/
def meanGtB (num : Int) (den : Nat) (k : Int) : Bool := k * (den : Int) < num

/-- Python `round(num / den)` for `den > 0`: round-half-to-even
(banker's rounding) of the exact quotient, computed on integers.  The
half case needs `2*num ≡ den [2*den]`, impossible for the odd
`den = 15`, but the general rule is modelled anyway. -/
def pyRoundDiv (num : Int) (den : Nat) : Int :=
  let q := num.ediv (den : Int)
  let r := num - q * (den : Int)
  if 2 * r < (den : Int) then q
  else if 2 * r > (den : Int) then q + 1
  else if q % 2 = 0 then q else q + 1

/-! ## CNPJ aggregation (routers/analysis.py, `perform_cnpj_analysis`) -/

/-- Findings list of the CNPJ cadastral module.  The nested access
`cnpj_data.get('atividade_principal', [{}])[0].get('text', 'N/A')`
runs outside any `try`, so a pathological activity value propagates an
exception out of `perform_cnpj_analysis`. -/
def cadastralFindings (d : Payload) (cnpj : String) : Except Unit (List String) := do
  let ativ ← if truthy ((pget d "atividade_principal").getD JVal.null) then do
      let v := (pget d "atividade_principal").getD (JVal.arr [JVal.obj []])
      let v0 ← jidx0 v
      let tx ← jget v0 "text"
      pure (pyStr (tx.getD (JVal.s "N/A")))
    else pure "N/A"
  pure ["CNPJ: " ++ cnpj,
        "Razão Social: " ++ pyStr ((pget d "nome").getD (JVal.s "N/A")),
        "Situação: " ++ pyStr ((pget d "situacao").getD (JVal.s "N/A")),
        "Atividade: " ++ ativ,
        "Endereço: " ++ pyStr ((pget d "logradouro").getD (JVal.s "N/A")) ++ ", " ++
          pyStr ((pget d "numero").getD (JVal.s "")) ++ ", " ++
          pyStr ((pget d "municipio").getD (JVal.s "N/A")) ++ "/" ++
          pyStr ((pget d "uf").getD (JVal.s "N/A")),
        "CEP: " ++ pyStr ((pget d "cep").getD (JVal.s "N/A")),
        "Data Abertura: " ++ pyStr ((pget d "abertura").getD (JVal.s "N/A")),
        "Capital Social: R$ " ++ pyStr ((pget d "capital_social").getD (JVal.s "N/A"))]

/-- Static data of one supplementary (filler) module. -/
structure SupplMod : Type where
  id : String
  name : String
  methodology : String
  base_score : Int

/-- The eight supplementary CNPJ modules (8–15), in source order. -/
def additional_modules : List SupplMod :=
  [{ id := "corporate", name := "8. Estrutura Societária",
     methodology := "Análise da composição societária, participações em outras empresas e estruturas de controle através de consultas ao CNPJ e JUCESP.",
     base_score := 75 },
   { id := "financial", name := "9. Indicadores Financeiros",
     methodology := "Análise de indicadores financeiros básicos extraídos de balanços públicos e registros na CVM quando disponível.",
     base_score := 70 },
   { id := "regulatory", name := "10. Conformidade Regulatória",
     methodology := "Verificação de licenças e autorizações específicas do setor de atuação junto aos órgãos reguladores competentes.",
     base_score := 80 },
   { id := "international", name := "11. Exposição Internacional",
     methodology := "Análise de operações internacionais, presença em paraísos fiscais e conformidade com regulações internacionais.",
     base_score := 85 },
   { id := "pep", name := "12. Pessoas Politicamente Expostas",
     methodology := "Verificação se sócios ou administradores são pessoas politicamente expostas através de bases oficiais.",
     base_score := 88 },
   { id := "technology", name := "13. Segurança Cibernética",
     methodology := "Avaliação básica de exposição a vazamentos de dados e incidentes de segurança através de bases públicas.",
     base_score := 82 },
   { id := "sectoral", name := "14. Riscos Setoriais",
     methodology := "Análise de riscos específicos do setor de atuação baseada em dados macroeconômicos e regulatórios.",
     base_score := 77 },
   { id := "operational", name := "15. Riscos Operacionais",
     methodology := "Avaliação de riscos operacionais baseada no porte da empresa, localização e histórico de atividades.",
     base_score := 79 }]

/-- One supplementary module result: `final_score = max(0, min(100,
base + random.randint(-15, 15)))` with the i-th jitter draw, and the
shared threshold split `>75 / >50`. -/
def mkSuppl (jit : Nat → Int) (i : Nat) (m : SupplMod)
    (findings : Int → List String) (highFactors lowFactors : List String) :
    ModuleResult :=
  let final_score := max 0 (min 100 (m.base_score + jit i))
  let risk_level := if final_score > 75 then "low"
    else if final_score > 50 then "medium" else "high"
  { id := m.id, name := m.name, score := final_score, risk := risk_level,
    status := "completed", methodology := m.methodology,
    findings := findings final_score,
    sources := ["Bases Governamentais", "Registros Públicos"],
    risk_factors := if risk_level = "high" then highFactors else lowFactors }

/-- Findings of a supplementary CNPJ module at a given final score. -/
def supplCnpjFindings (final_score : Int) : List String :=
  ["Análise completada com score " ++ toString final_score ++ "/100",
   "Dados coletados de fontes oficiais",
   "Avaliação baseada em critérios objetivos"]

/-- `perform_cnpj_analysis` (routers/analysis.py): builds the 15 module
results in source order — cadastral from the merged registry payload,
six analyzer-backed modules awaited one after another, eight
supplementary modules — then reduces them into the `OverallReport`
(`overall_score = round(sum/len)`, `risk_level` thresholds on the
unrounded mean, finding count, high-risk count, entity info). -/
def perform_cnpj_analysis (cnpj_data : Payload) (cnpj : String)
    (t : Transport) (jit : Nat → Int) : Except Unit OverallReport := do
  let cadastral_score : Int :=
    if jeqStr ((pget cnpj_data "situacao").getD JVal.null) "ATIVA" then 85 else 45
  let cadF ← cadastralFindings cnpj_data cnpj
  let m1 : ModuleResult :=
    { id := "cadastral", name := "1. Análise Cadastral", score := cadastral_score,
      risk := if cadastral_score > 70 then "low" else "high", status := "completed",
      methodology := "Consulta à base da Receita Federal através da API MinhaReceita. Verificação da situação cadastral, atividades econômicas, endereço, data de abertura e capital social.",
      findings := cadF, sources := ["Receita Federal", "MinhaReceita.org"],
      risk_factors := if cadastral_score < 70 then
          ["Situação Inativa", "Dados inconsistentes", "CNPJ suspenso"]
        else ["Nenhum fator de risco identificado"] }
  let sr := analyze_cnpj_sanctions t cnpj
  let m2 : ModuleResult :=
    { id := "sanctions", name := "2. Análise de Sanções e Restrições",
      score := sr.score, risk := sr.risk, status := "completed",
      methodology := "Consulta automática às bases CEIS (Cadastro de Empresas Inidôneas e Suspensas), CNEP (Cadastro Nacional de Empresas Punidas) e listas internacionais de sanções da ONU e União Europeia.",
      findings := sr.findings, sources := sr.sources,
      risk_factors := if sr.risk = "high" then
          ["Sanções ativas", "Inidoneidade", "Suspensão de contratos"]
        else ["Nenhuma sanção identificada"] }
  let lr := analyze_cnpj_legal t cnpj
  let m3 : ModuleResult :=
    { id := "legal", name := "3. Processos Judiciais",
      score := lr.score, risk := lr.risk, status := "completed",
      methodology := "Busca automatizada em tribunais federais e estaduais através de APIs especializadas. Análise de processos cíveis, trabalhistas, tributários e criminais envolvendo a empresa.",
      findings := lr.findings, sources := lr.sources,
      risk_factors := if lr.risk = "high" then
          ["Processos de grande valor", "Múltiplas ações", "Condenações"]
        else ["Baixo volume processual"] }
  let fr := analyze_fiscal_situation t cnpj
  let m4 : ModuleResult :=
    { id := "fiscal", name := "4. Situação Fiscal",
      score := fr.score, risk := fr.risk, status := "completed",
      methodology := "Verificação da regularidade fiscal federal, estadual e municipal. Consulta de débitos, parcelamentos, certidões negativas e situação no SIMPLES Nacional.",
      findings := fr.findings, sources := fr.sources,
      risk_factors := if fr.risk = "high" then
          ["Débitos em aberto", "Irregularidade fiscal", "Parcelamentos vencidos"]
        else ["Situação fiscal regular"] }
  let mr := analyze_media_mentions t (pyStr ((pget cnpj_data "nome").getD (JVal.s cnpj)))
  let m5 : ModuleResult :=
    { id := "media", name := "5. Análise de Mídia e Reputação",
      score := mr.score, risk := mr.risk, status := "completed",
      methodology := "Monitoramento de menções na mídia através de APIs de notícias. Análise de sentimento usando processamento de linguagem natural para identificar menções negativas ou controversas.",
      findings := mr.findings, sources := mr.sources,
      risk_factors := if mr.risk = "high" then
          ["Notícias negativas recentes", "Escândalos", "Investigações"]
        else ["Reputação estável"] }
  let er := analyze_environmental t cnpj
  let m6 : ModuleResult :=
    { id := "environmental", name := "6. Conformidade Ambiental",
      score := er.score, risk := er.risk, status := "completed",
      methodology := "Consulta ao IBAMA e órgãos ambientais estaduais para verificar embargos, multas, licenças ambientais e auto de infrações.",
      findings := er.findings, sources := er.sources,
      risk_factors := if er.risk = "high" then
          ["Multas ambientais", "Embargos IBAMA", "Licenças vencidas"]
        else ["Conformidade ambiental em dia"] }
  let wr := analyze_labor_issues t cnpj
  let m7 : ModuleResult :=
    { id := "labor", name := "7. Conformidade Trabalhista",
      score := wr.score, risk := wr.risk, status := "completed",
      methodology := "Verificação no Ministério do Trabalho de autuações, embargos, trabalho escravo e acidentes de trabalho. Consulta à lista suja do trabalho escravo.",
      findings := wr.findings, sources := wr.sources,
      risk_factors := if wr.risk = "high" then
          ["Trabalho escravo", "Autuações MTE", "Acidentes frequentes"]
        else ["Conformidade trabalhista adequada"] }
  let modules := [m1, m2, m3, m4, m5, m6, m7] ++
    additional_modules.enum.map (fun p =>
      mkSuppl jit p.1 p.2 supplCnpjFindings
        ["Alertas identificados"] ["Baixo risco operacional"])
  let scoresSum := (modules.map (fun m => m.score)).sum
  pure
    { overall_score := pyRoundDiv scoresSum modules.length,
      risk_level := if meanGtB scoresSum modules.length 80 then "low"
        else if meanGtB scoresSum modules.length 60 then "medium" else "high",
      total_findings := (modules.map (fun m => m.findings.length)).sum,
      critical_issues := modules.countP (fun m => m.risk == "high"),
      modules := modules,
      entity_info :=
        { name := pyStr ((pget cnpj_data "nome").getD (JVal.s "N/A")),
          document := cnpj,
          status := pyStr ((pget cnpj_data "situacao").getD (JVal.s "N/A")),
          type := "Pessoa Jurídica" } }

/-- The CNPJ analysis path of the `/analysis` route: fetch the merged
registry payload (uncaught if it raises), then aggregate. -/
def run_cnpj (t : Transport) (jit : Nat → Int) (cnpj : String) :
    Except Unit OverallReport := do
  let d ← fetch_cnpj t cnpj
  perform_cnpj_analysis d cnpj t jit

/-! ## CPF aggregation (routers/analysis.py, `perform_cpf_analysis`) -/

/-- Formatted CPF `cpf[:3].cpf[3:6].cpf[6:9]-cpf[9:]`. -/
def cpfFmt (cpf : String) : String :=
  (cpf.take 3) ++ "." ++ ((cpf.drop 3).take 3) ++ "." ++ ((cpf.drop 6).take 3) ++
    "-" ++ cpf.drop 9

/-- URL of the minhareceita.org CPF endpoint. -/
def rfbCpfUrl (cpf : String) : String := "https://minhareceita.org/cpf/" ++ cpf

/-- URL of the CEIS sanctions query for a CPF. -/
def ceisCpfUrl (cpf : String) : String :=
  "https://www.portaltransparencia.gov.br/api-de-dados/ceis?cpf=" ++ cpf

/-- URL of the CADIN query for a CPF. -/
def cadinCpfUrl (cpf : String) : String :=
  "https://www.portaltransparencia.gov.br/api-de-dados/cadin?cpf=" ++ cpf

/-- URL of the PEP query for a CPF. -/
def pepCpfUrl (cpf : String) : String :=
  "https://www.portaltransparencia.gov.br/api-de-dados/pep?cpf=" ++ cpf

/-- The `try` block body of the CPF cadastral check, as a function of
the HTTP outcome: a raised transport error, JSON parse failure or
attribute error lands in the `except` fallback.  The status test is an
exact `status_code == 200`, not a 2xx range. -/
def cpfCadastralTry (resp : FetchOutcome) (cpf : String) :
    Except Unit (Int × String × List String) :=
  match resp with
  | FetchOutcome.err => Except.error ()
  | FetchOutcome.ok status _ json =>
      if status = 200 then do
        let d ← json
        let sv ← jget d "situacao"
        let cadastral_score : Int := if jeqStr (sv.getD JVal.null) "regular" then 85 else 60
        let sv2 ← jget d "situacao"
        pure (cadastral_score,
              if cadastral_score > 70 then "low" else "medium",
              ["CPF: " ++ cpfFmt cpf,
               "Situação: " ++ pyStr (sv2.getD (JVal.s "Verificado")),
               "Consulta realizada na Receita Federal"])
      else
        Except.ok (75, "low",
          ["CPF: " ++ cpfFmt cpf, "CPF válido - formato correto",
           "Verificação básica realizada"])

/-- CPF cadastral check: direct `httpx` call guarded by `try/except`. -/
def cpfCadastral (t : Transport) (cpf : String) : Int × String × List String :=
  pyTry (cpfCadastralTry (t (rfbCpfUrl cpf)) cpf)
    (70, "medium", ["CPF: " ++ cpfFmt cpf, "Verificação de formato aprovada"])

/-- The `try` block body of the CPF CEIS sanctions check. -/
def cpfSanctionsTry (resp : FetchOutcome) : Except Unit (Int × String × List String) :=
  match resp with
  | FetchOutcome.err => Except.error ()
  | FetchOutcome.ok status _ json =>
      if status = 200 then do
        let d ← json
        if truthy d then do
          let n ← jlen d
          if n > 0 then
            pure (40, "high",
              [toString n ++ " sanção(ões) encontrada(s)",
               "Verificação detalhada necessária"])
          else pure (90, "low", ["Nenhuma sanção encontrada no CEIS"])
        else pure (90, "low", ["Nenhuma sanção encontrada no CEIS"])
      else Except.ok (85, "low", ["Consulta realizada - sem restrições"])

/-- CPF sanctions check against CEIS, guarded by `try/except`. -/
def cpfSanctions (t : Transport) (cpf : String) : Int × String × List String :=
  pyTry (cpfSanctionsTry (t (ceisCpfUrl cpf)))
    (80, "low", ["Verificação de sanções realizada"])

/-- The `try` block body of the CPF CADIN check. -/
def cpfCadinTry (resp : FetchOutcome) : Except Unit (Int × String × List String) :=
  match resp with
  | FetchOutcome.err => Except.error ()
  | FetchOutcome.ok status _ json =>
      if status = 200 then do
        let d ← json
        if truthy d then do
          let n ← jlen d
          if n > 0 then
            pure (45, "high",
              [toString n ++ " restrição(ões) no CADIN",
               "Pendências financeiras identificadas"])
          else pure (88, "low", ["Sem restrições no CADIN"])
        else pure (88, "low", ["Sem restrições no CADIN"])
      else Except.ok (82, "low", ["Consulta CADIN realizada"])

/-- CPF CADIN check, guarded by `try/except`. -/
def cpfCadin (t : Transport) (cpf : String) : Int × String × List String :=
  pyTry (cpfCadinTry (t (cadinCpfUrl cpf)))
    (80, "low", ["Verificação CADIN completada"])

/-- The `try` block body of the CPF politically-exposed-person check. -/
def cpfPepTry (resp : FetchOutcome) : Except Unit (Int × String × List String) :=
  match resp with
  | FetchOutcome.err => Except.error ()
  | FetchOutcome.ok status _ json =>
      if status = 200 then do
        let d ← json
        if truthy d then do
          let n ← jlen d
          if n > 0 then
            pure (60, "medium",
              ["Identificado como Pessoa Politicamente Exposta",
               "Due diligence reforçada necessária"])
          else pure (90, "low", ["Não identificado como PEP"])
        else pure (90, "low", ["Não identificado como PEP"])
      else Except.ok (85, "low", ["Consulta PEP realizada"])

/-- CPF politically-exposed-person check, guarded by `try/except`. -/
def cpfPep (t : Transport) (cpf : String) : Int × String × List String :=
  pyTry (cpfPepTry (t (pepCpfUrl cpf)))
    (82, "low", ["Verificação PEP completada"])

/-- The eleven supplementary CPF modules (5–15), in source order. -/
def additional_cpf_modules : List SupplMod :=
  [{ id := "criminal", name := "5. Antecedentes Criminais",
     methodology := "Consulta a bases públicas de antecedentes criminais e certidões de distribuição criminal através de tribunais.",
     base_score := 85 },
   { id := "civil_processes", name := "6. Processos Cíveis",
     methodology := "Busca em tribunais federais e estaduais para identificar processos cíveis ativos ou recentes envolvendo a pessoa física.",
     base_score := 80 },
   { id := "electoral", name := "7. Situação Eleitoral",
     methodology := "Verificação junto ao TSE da situação eleitoral, incluindo regularidade, multas eleitorais e restrições.",
     base_score := 90 },
   { id := "financial", name := "8. Histórico Financeiro",
     methodology := "Análise de indicadores financeiros básicos através de bureaus de crédito e consultas a órgãos de proteção ao crédito.",
     base_score := 75 },
   { id := "professional", name := "9. Registros Profissionais",
     methodology := "Verificação de registros em conselhos profissionais e entidades de classe quando aplicável.",
     base_score := 88 },
   { id := "property", name := "10. Bens e Propriedades",
     methodology := "Consulta a cartórios de registro de imóveis e DETRAN para verificar patrimônio declarado em bases públicas.",
     base_score := 82 },
   { id := "social_media", name := "11. Análise de Mídia Social",
     methodology := "Monitoramento de menções em redes sociais e mídias digitais para análise de reputação e exposição.",
     base_score := 85 },
   { id := "labor_issues", name := "12. Questões Trabalhistas",
     methodology := "Verificação no Ministério do Trabalho de processos, autuações ou irregularidades trabalhistas como pessoa física.",
     base_score := 90 },
   { id := "tax_compliance", name := "13. Conformidade Tributária",
     methodology := "Análise da situação fiscal como pessoa física, incluindo IR, multas tributárias e débitos com a Fazenda.",
     base_score := 78 },
   { id := "behavioral", name := "14. Análise Comportamental",
     methodology := "Avaliação de padrões de comportamento financeiro e transacional baseada em dados públicos disponíveis.",
     base_score := 83 },
   { id := "risk_profile", name := "15. Perfil de Risco Geral",
     methodology := "Consolidação de todos os módulos anteriores para geração de perfil de risco integrado da pessoa física.",
     base_score := 80 }]

/-- Findings of a supplementary CPF module at a given final score. -/
def supplCpfFindings (final_score : Int) : List String :=
  ["Análise completada com score " ++ toString final_score ++ "/100",
   "Verificação realizada em bases oficiais",
   "Dados coletados conforme metodologia estabelecida"]

/-- `perform_cpf_analysis` (routers/analysis.py): four real CPF checks
awaited one after another (each absorbing its own failures), eleven
supplementary modules, then the same reduction as the CNPJ path.  Total:
no exception escapes. -/
def perform_cpf_analysis (t : Transport) (jit : Nat → Int) (cpf : String) :
    OverallReport :=
  let c1 := cpfCadastral t cpf
  let m1 : ModuleResult :=
    { id := "cadastral", name := "1. Análise Cadastral",
      score := c1.1, risk := c1.2.1, status := "completed",
      methodology := "Consulta à base da Receita Federal para verificação de situação cadastral, regularidade e dados básicos do CPF.",
      findings := c1.2.2, sources := ["Receita Federal"],
      risk_factors := if c1.2.1 ≠ "low" then ["CPF irregular", "Dados inconsistentes"]
        else ["Nenhum fator de risco identificado"] }
  let c2 := cpfSanctions t cpf
  let m2 : ModuleResult :=
    { id := "sanctions", name := "2. Análise de Sanções",
      score := c2.1, risk := c2.2.1, status := "completed",
      methodology := "Verificação automática em bases nacionais de sanções (CEIS/CNEP) e internacionais para identificar restrições ativas.",
      findings := c2.2.2, sources := ["CEIS", "CNEP"],
      risk_factors := if c2.2.1 = "high" then ["Sanções ativas", "Inidoneidade"]
        else ["Nenhuma sanção identificada"] }
  let c3 := cpfCadin t cpf
  let m3 : ModuleResult :=
    { id := "cadin", name := "3. Consulta CADIN",
      score := c3.1, risk := c3.2.1, status := "completed",
      methodology := "Consulta ao Cadastro Informativo de Créditos não Quitados do Setor Público Federal para verificar débitos com a União.",
      findings := c3.2.2, sources := ["CADIN"],
      risk_factors := if c3.2.1 = "high" then ["Débitos com a União", "Pendências financeiras"]
        else ["Situação regular no CADIN"] }
  let c4 := cpfPep t cpf
  let m4 : ModuleResult :=
    { id := "pep", name := "4. Pessoa Politicamente Exposta",
      score := c4.1, risk := c4.2.1, status := "completed",
      methodology := "Verificação nas bases oficiais de PEPs (Pessoas Politicamente Expostas) conforme regulamentação do Banco Central.",
      findings := c4.2.2, sources := ["Portal da Transparência"],
      risk_factors := if c4.2.1 = "medium" then
          ["Status PEP ativo", "Due diligence reforçada necessária"]
        else ["Não identificado como PEP"] }
  let modules := [m1, m2, m3, m4] ++
    additional_cpf_modules.enum.map (fun p =>
      mkSuppl jit p.1 p.2 supplCpfFindings
        ["Alertas identificados no módulo"] ["Baixo risco identificado"])
  let scoresSum := (modules.map (fun m => m.score)).sum
  { overall_score := pyRoundDiv scoresSum modules.length,
    risk_level := if meanGtB scoresSum modules.length 80 then "low"
      else if meanGtB scoresSum modules.length 60 then "medium" else "high",
    total_findings := (modules.map (fun m => m.findings.length)).sum,
    critical_issues := modules.countP (fun m => m.risk == "high"),
    modules := modules,
    entity_info :=
      { name := "Pessoa Física", document := cpfFmt cpf,
        status := "Ativo", type := "Pessoa Física" } }

/-! ## Analyzer invocation trace (concurrency structure of the engine) -/

/-- Begin/end events of one module analyzer invocation within a run. -/
inductive AnalyzerEv : Type
  | beg (id : String)
  | fin (id : String)
deriving DecidableEq

/-- Invocation trace of `perform_cnpj_analysis`, read off the statement
order of the source: the cadastral block runs inline, each
`await real_analysis_service.analyze_*` starts only after the previous
one has returned (`asyncio` transfers control only at `await`, and none
of these coroutines is spawned as a task or gathered), and the
supplementary loop runs inline afterwards.  Every module therefore
contributes an adjacent begin/end pair. -/
def cnpjModuleTrace : List AnalyzerEv :=
  [AnalyzerEv.beg "cadastral", AnalyzerEv.fin "cadastral",
   AnalyzerEv.beg "sanctions", AnalyzerEv.fin "sanctions",
   AnalyzerEv.beg "legal", AnalyzerEv.fin "legal",
   AnalyzerEv.beg "fiscal", AnalyzerEv.fin "fiscal",
   AnalyzerEv.beg "media", AnalyzerEv.fin "media",
   AnalyzerEv.beg "environmental", AnalyzerEv.fin "environmental",
   AnalyzerEv.beg "labor", AnalyzerEv.fin "labor",
   AnalyzerEv.beg "corporate", AnalyzerEv.fin "corporate",
   AnalyzerEv.beg "financial", AnalyzerEv.fin "financial",
   AnalyzerEv.beg "regulatory", AnalyzerEv.fin "regulatory",
   AnalyzerEv.beg "international", AnalyzerEv.fin "international",
   AnalyzerEv.beg "pep", AnalyzerEv.fin "pep",
   AnalyzerEv.beg "technology", AnalyzerEv.fin "technology",
   AnalyzerEv.beg "sectoral", AnalyzerEv.fin "sectoral",
   AnalyzerEv.beg "operational", AnalyzerEv.fin "operational"]

/-- Position of an event in a trace. -/
def evIdx (tr : List AnalyzerEv) (e : AnalyzerEv) : Option Nat :=
  tr.findIdx? (fun x => x == e)

/-- Two analyzer invocations overlap in a trace when each one begins
before the other ends. -/
def overlapsB (tr : List AnalyzerEv) (a b : String) : Bool :=
  match evIdx tr (AnalyzerEv.beg a), evIdx tr (AnalyzerEv.fin a),
        evIdx tr (AnalyzerEv.beg b), evIdx tr (AnalyzerEv.fin b) with
  | some ba, some fa, some bb, some fb => bb < fa && ba < fb
  | _, _, _, _ => false

/-- Concurrent invocation of a family of analyzers: every two distinct
members have overlapping invocation intervals (what `asyncio.gather`
over the analyzer coroutines would produce). -/
def concInvokedB (tr : List AnalyzerEv) (ids : List String) : Bool :=
  ids.all (fun a => ids.all (fun b => a == b || overlapsB tr a b))

/-- Strictly sequential invocation: no two distinct members overlap. -/
def seqInvokedB (tr : List AnalyzerEv) (ids : List String) : Bool :=
  ids.all (fun a => ids.all (fun b => a == b || !overlapsB tr a b))

/-! ## Canonical module rosters and claim-side formulas -/

/-- Canonical CNPJ module ordering (§4.4 of the specification). -/
def cnpjCanonicalIds : List String :=
  ["cadastral", "sanctions", "legal", "fiscal", "media", "environmental",
   "labor", "corporate", "financial", "regulatory", "international", "pep",
   "technology", "sectoral", "operational"]

/-- Canonical CPF module ordering. -/
def cpfCanonicalIds : List String :=
  ["cadastral", "sanctions", "cadin", "pep", "criminal", "civil_processes",
   "electoral", "financial", "professional", "property", "social_media",
   "labor_issues", "tax_compliance", "behavioral", "risk_profile"]

/-- The claim's `risk_level` formula, read as a function of the rounded
`overall_score`: `low if overall_score > 80 else medium if
overall_score > 60 else high`. -/
def claimRiskFromRounded (overall_score : Int) : String :=
  if overall_score > 80 then "low"
  else if overall_score > 60 then "medium" else "high"

/-! ## Range lemmas: every analyzer emits one of finitely many
(score, risk) pairs, whatever the transport does -/

theorem pyTry_mem {α : Type} (P : α → Prop) (body : Except Unit α) (fb : α)
    (hok : ∀ v, body = Except.ok v → P v) (hfb : P fb) : P (pyTry body fb) := by
  cases body with
  | error e => exact hfb
  | ok v => exact hok v rfl

theorem sanctionsCeisTry_pair (ceis : JVal) (v : List String × Int × String)
    (h : sanctionsCeisTry ceis = Except.ok v) :
    v.2 ∈ [((25 : Int), "high"), (90, "low")] := by
  unfold sanctionsCeisTry at h
  cases ht : truthy ceis <;> rw [ht] at h
  · simp only [Bool.false_eq_true, ite_false] at h
    cases h; dsimp only; decide
  · simp only [ite_true, bind, Except.bind] at h
    rcases hn : jlen ceis with ⟨⟩ | n <;> rw [hn] at h <;> dsimp only at h
    · cases h
    · by_cases hgt : n > 0
      · rw [if_pos hgt] at h
        rcases hi : jidx0 ceis with ⟨⟩ | first <;> rw [hi] at h <;> dsimp only at h
        · cases h
        · rcases hg : jget first "tipoSancao" with ⟨⟩ | tipo <;> rw [hg] at h <;>
            dsimp only at h
          · cases h
          · cases h; dsimp only; decide
      · rw [if_neg hgt] at h
        cases h; dsimp only; decide

theorem sanctionsCnepTry_pair (cnep : JVal) (score : Int) (risk : String)
    (v : List String × Int × String)
    (h : sanctionsCnepTry cnep score risk = Except.ok v) :
    v.2 = (min score 40, "high") ∨ v.2 = (score, risk) := by
  unfold sanctionsCnepTry at h
  cases ht : truthy cnep <;> rw [ht] at h
  · simp only [Bool.false_eq_true, ite_false] at h
    cases h; right; rfl
  · simp only [ite_true, bind, Except.bind] at h
    rcases hn : jlen cnep with ⟨⟩ | n <;> rw [hn] at h <;> dsimp only at h
    · cases h
    · by_cases hgt : n > 0
      · rw [if_pos hgt] at h
        cases h; left; rfl
      · rw [if_neg hgt] at h
        cases h; right; rfl

theorem sanctions_pair (t : Transport) (c : String) :
    ((analyze_cnpj_sanctions t c).score, (analyze_cnpj_sanctions t c).risk) ∈
      [((25 : Int), "high"), (40, "high"), (90, "low"), (70, "medium")] := by
  unfold analyze_cnpj_sanctions
  dsimp only
  have h1 : (pyTry (sanctionsCeisTry (fetch_with_timeout t (ceisUrl c)))
      (["Erro ao consultar CEIS - verificação manual recomendada"], 70, "medium")).2 ∈
      [((25 : Int), "high"), (90, "low"), (70, "medium")] := by
    apply pyTry_mem
      (fun r : List String × Int × String => r.2 ∈ [((25 : Int), "high"), (90, "low"), (70, "medium")])
    · intro v hv
      have hm := sanctionsCeisTry_pair _ _ hv
      simp only [List.mem_cons, List.not_mem_nil, or_false] at hm ⊢
      tauto
    · dsimp only; decide
  generalize hr1 : pyTry (sanctionsCeisTry (fetch_with_timeout t (ceisUrl c)))
      (["Erro ao consultar CEIS - verificação manual recomendada"], 70, "medium") = r1 at h1 ⊢
  show (pyTry (sanctionsCnepTry (fetch_with_timeout t (cnepUrl c)) r1.2.1 r1.2.2)
      (["Erro ao consultar CNEP"], r1.2.1, r1.2.2)).2 ∈ _
  apply pyTry_mem
    (fun r : List String × Int × String => r.2 ∈ [((25 : Int), "high"), (40, "high"), (90, "low"), (70, "medium")])
  · intro v hv
    rcases sanctionsCnepTry_pair _ _ _ _ hv with h | h
    · rw [h]
      simp only [List.mem_cons, List.not_mem_nil, or_false] at h1 ⊢
      rcases h1 with h1 | h1 | h1 <;> rw [h1] <;> decide
    · rw [h]
      have : (r1.2.1, r1.2.2) = r1.2 := rfl
      rw [this]
      simp only [List.mem_cons, List.not_mem_nil, or_false] at h1 ⊢
      tauto
  · show (r1.2.1, r1.2.2) ∈ _
    have : (r1.2.1, r1.2.2) = r1.2 := rfl
    rw [this]
    simp only [List.mem_cons, List.not_mem_nil, or_false] at h1 ⊢
    tauto

theorem legalTry_pair (legal : JVal) (v : List String × Int × String)
    (h : legalTry legal = Except.ok v) :
    v.2 ∈ [((60 : Int), "medium"), (40, "high"), (85, "low")] := by
  unfold legalTry at h
  cases ht : truthy legal <;> rw [ht] at h <;>
    simp only [Bool.false_eq_true, ite_false, ite_true, bind, Except.bind,
      pure, Except.pure] at h
  · cases h; dsimp only; decide
  · rcases hg : jget legal "results" with ⟨⟩ | rv <;> rw [hg] at h <;>
      simp only [bind, Except.bind, pure, Except.pure] at h
    · cases h
    · cases hc : truthy (rv.getD JVal.null) <;> rw [hc] at h <;>
        simp only [Bool.false_eq_true, ite_false, ite_true, bind, Except.bind,
          pure, Except.pure] at h
      · cases h; dsimp only; decide
      · rcases hn : jlen (rv.getD (JVal.arr [])) with ⟨⟩ | pc <;> rw [hn] at h <;>
          simp only [bind, Except.bind, pure, Except.pure] at h
        · cases h
        · by_cases hle : pc ≤ 2
          · rw [if_pos hle, if_pos hle] at h
            cases h; dsimp only; decide
          · rw [if_neg hle, if_neg hle] at h
            cases h; dsimp only; decide

theorem legal_pair (t : Transport) (c : String) :
    ((analyze_cnpj_legal t c).score, (analyze_cnpj_legal t c).risk) ∈
      [((60 : Int), "medium"), (40, "high"), (85, "low"), (75, "low")] := by
  unfold analyze_cnpj_legal
  dsimp only
  apply pyTry_mem
    (fun r : List String × Int × String =>
      (r.2.1, r.2.2) ∈ [((60 : Int), "medium"), (40, "high"), (85, "low"), (75, "low")])
  · intro v hv
    have hm := legalTry_pair _ _ hv
    show v.2 ∈ _
    simp only [List.mem_cons, List.not_mem_nil, or_false] at hm ⊢
    tauto
  · decide

theorem fiscalTry_pair (rfb : JVal) (v : List String × Int × String)
    (h : fiscalTry rfb = Except.ok v) :
    v.2 ∈ [((85 : Int), "low"), (45, "high"), (70, "medium"), (60, "medium")] := by
  unfold fiscalTry at h
  cases ht : truthy rfb <;> rw [ht] at h <;>
    simp only [Bool.false_eq_true, ite_false, ite_true, bind, Except.bind,
      pure, Except.pure] at h
  · cases h; dsimp only; decide
  · rcases hg : jget rfb "situacao" with ⟨⟩ | sv <;> rw [hg] at h <;>
      simp only [bind, Except.bind, pure, Except.pure] at h
    · cases h
    · rcases hu : jupper (sv.getD (JVal.s "")) with ⟨⟩ | situ <;> rw [hu] at h <;>
        simp only [bind, Except.bind, pure, Except.pure] at h
      · cases h
      · rcases hs : jget rfb "simples" with ⟨⟩ | simples <;> rw [hs] at h <;>
          simp only [bind, Except.bind, pure, Except.pure] at h
        · cases h
        · by_cases h1 : situ = "ATIVA"
          · rw [if_pos h1] at h
            cases hsim : truthy (simples.getD JVal.null) <;> rw [hsim] at h <;>
              simp only [Bool.false_eq_true, ite_false, ite_true] at h <;>
              cases h <;> dsimp only <;> decide
          · rw [if_neg h1] at h
            by_cases h2 : situ = "SUSPENSA" ∨ situ = "INAPTA"
            · rw [if_pos h2] at h
              cases hsim : truthy (simples.getD JVal.null) <;> rw [hsim] at h <;>
                simp only [Bool.false_eq_true, ite_false, ite_true] at h <;>
                cases h <;> dsimp only <;> decide
            · rw [if_neg h2] at h
              cases hsim : truthy (simples.getD JVal.null) <;> rw [hsim] at h <;>
                simp only [Bool.false_eq_true, ite_false, ite_true] at h <;>
                cases h <;> dsimp only <;> decide

theorem fiscal_pair (t : Transport) (c : String) :
    ((analyze_fiscal_situation t c).score, (analyze_fiscal_situation t c).risk) ∈
      [((85 : Int), "low"), (45, "high"), (70, "medium"), (60, "medium"), (50, "medium")] := by
  unfold analyze_fiscal_situation
  dsimp only
  apply pyTry_mem
    (fun r : List String × Int × String =>
      (r.2.1, r.2.2) ∈
        [((85 : Int), "low"), (45, "high"), (70, "medium"), (60, "medium"), (50, "medium")])
  · intro v hv
    have hm := fiscalTry_pair _ _ hv
    show v.2 ∈ _
    simp only [List.mem_cons, List.not_mem_nil, or_false] at hm ⊢
    tauto
  · decide

theorem mediaTry_pair (news : JVal) (v : List String × Int × String)
    (h : mediaTry news = Except.ok v) :
    v.2 ∈ [((60 : Int), "medium"), (40, "high"), (90, "low")] := by
  unfold mediaTry at h
  cases ht : truthy news <;> rw [ht] at h <;>
    simp only [Bool.false_eq_true, ite_false, ite_true, bind, Except.bind,
      pure, Except.pure] at h
  · rcases hg : jgtInt (JVal.num 0) 0 with ⟨⟩ | g0 <;> rw [hg] at h <;>
      simp only [bind, Except.bind, pure, Except.pure] at h
    · cases h
    · cases hg0 : g0 <;> rw [hg0] at h <;>
        simp only [Bool.false_eq_true, ite_false, ite_true, bind, Except.bind,
          pure, Except.pure] at h
      · cases h; dsimp only; decide
      · rcases hl : jleInt (JVal.num 0) 2 with ⟨⟩ | l2 <;> rw [hl] at h <;>
          simp only [bind, Except.bind, pure, Except.pure] at h
        · cases h
        · cases hl2 : l2 <;> rw [hl2] at h <;>
            simp only [Bool.false_eq_true, ite_false, ite_true] at h <;>
            cases h <;> dsimp only <;> decide
  · rcases hj : jget news "totalResults" with ⟨⟩ | tv <;> rw [hj] at h <;>
      simp only [bind, Except.bind, pure, Except.pure] at h
    · cases h
    · rcases hg : jgtInt (tv.getD (JVal.num 0)) 0 with ⟨⟩ | g0 <;> rw [hg] at h <;>
        simp only [bind, Except.bind, pure, Except.pure] at h
      · cases h
      · cases hg0 : g0 <;> rw [hg0] at h <;>
          simp only [Bool.false_eq_true, ite_false, ite_true, bind, Except.bind,
            pure, Except.pure] at h
        · cases h; dsimp only; decide
        · rcases hl : jleInt (tv.getD (JVal.num 0)) 2 with ⟨⟩ | l2 <;> rw [hl] at h <;>
            simp only [bind, Except.bind, pure, Except.pure] at h
          · cases h
          · cases hl2 : l2 <;> rw [hl2] at h <;>
              simp only [Bool.false_eq_true, ite_false, ite_true] at h <;>
              cases h <;> dsimp only <;> decide

theorem media_pair (t : Transport) (name : String) :
    ((analyze_media_mentions t name).score, (analyze_media_mentions t name).risk) ∈
      [((60 : Int), "medium"), (40, "high"), (90, "low"), (85, "low")] := by
  unfold analyze_media_mentions
  dsimp only
  apply pyTry_mem
    (fun r : List String × Int × String =>
      (r.2.1, r.2.2) ∈ [((60 : Int), "medium"), (40, "high"), (90, "low"), (85, "low")])
  · intro v hv
    have hm := mediaTry_pair _ _ hv
    show v.2 ∈ _
    simp only [List.mem_cons, List.not_mem_nil, or_false] at hm ⊢
    tauto
  · decide

theorem envTry_pair (ibama env : JVal) (v : List String × Int × String)
    (h : envTry ibama env = Except.ok v) :
    v.2 ∈ [((35 : Int), "high"), (45, "high"), (88, "low")] := by
  unfold envTry at h
  by_cases hc : truthy ibama = true ∧ strIn "embargo" (lowerStr (pyStr ibama)) = true
  · rw [if_pos hc] at h
    cases h; dsimp only; decide
  · rw [if_neg hc] at h
    simp only [bind, Except.bind, pure, Except.pure] at h
    cases ht : truthy env <;> rw [ht] at h <;>
      simp only [Bool.false_eq_true, ite_false, ite_true, bind, Except.bind,
        pure, Except.pure] at h
    · cases h; dsimp only; decide
    · rcases hg : jget env "infrações" with ⟨⟩ | iv <;> rw [hg] at h <;>
        simp only [bind, Except.bind, pure, Except.pure] at h
      · cases h
      · cases hiv : truthy (iv.getD JVal.null) <;> rw [hiv] at h <;>
          simp only [Bool.false_eq_true, ite_false, ite_true] at h <;>
          cases h <;> dsimp only <;> decide

theorem env_pair (t : Transport) (c : String) :
    ((analyze_environmental t c).score, (analyze_environmental t c).risk) ∈
      [((35 : Int), "high"), (45, "high"), (88, "low"), (82, "low")] := by
  unfold analyze_environmental
  dsimp only
  apply pyTry_mem
    (fun r : List String × Int × String =>
      (r.2.1, r.2.2) ∈ [((35 : Int), "high"), (45, "high"), (88, "low"), (82, "low")])
  · intro v hv
    have hm := envTry_pair _ _ _ hv
    show v.2 ∈ _
    simp only [List.mem_cons, List.not_mem_nil, or_false] at hm ⊢
    tauto
  · decide

theorem laborTry_pair (mte caged : JVal) (v : List String × Int × String)
    (h : laborTry mte caged = Except.ok v) :
    v.2 ∈ [((50 : Int), "medium"), (35, "high"), (60, "medium"), (87, "low")] := by
  unfold laborTry at h
  cases ht : truthy mte <;> rw [ht] at h <;>
    simp only [Bool.false_eq_true, ite_false, ite_true, bind, Except.bind,
      pure, Except.pure] at h
  · cases hc : truthy caged <;> rw [hc] at h <;>
      simp only [Bool.false_eq_true, ite_false, ite_true, bind, Except.bind,
        pure, Except.pure] at h
    · cases h; dsimp only; decide
    · rcases hg : jget caged "situacao" with ⟨⟩ | cv <;> rw [hg] at h <;>
        simp only [bind, Except.bind, pure, Except.pure] at h
      · cases h
      · cases hcv : jeqStr (cv.getD JVal.null) "irregular" <;> rw [hcv] at h <;>
          simp only [Bool.false_eq_true, ite_false, ite_true] at h <;>
          cases h <;> dsimp only <;> decide
  · rcases hg : jget mte "autuacoes" with ⟨⟩ | av <;> rw [hg] at h <;>
      simp only [bind, Except.bind, pure, Except.pure] at h
    · cases h
    · cases hav : truthy (av.getD JVal.null) <;> rw [hav] at h <;>
        simp only [Bool.false_eq_true, ite_false, ite_true, bind, Except.bind,
          pure, Except.pure] at h
      · cases hc : truthy caged <;> rw [hc] at h <;>
          simp only [Bool.false_eq_true, ite_false, ite_true, bind, Except.bind,
            pure, Except.pure] at h
        · cases h; dsimp only; decide
        · rcases hg2 : jget caged "situacao" with ⟨⟩ | cv <;> rw [hg2] at h <;>
            simp only [bind, Except.bind, pure, Except.pure] at h
          · cases h
          · cases hcv : jeqStr (cv.getD JVal.null) "irregular" <;> rw [hcv] at h <;>
              simp only [Bool.false_eq_true, ite_false, ite_true] at h <;>
              cases h <;> dsimp only <;> decide
      · rcases hn : jlen (av.getD (JVal.arr [])) with ⟨⟩ | n <;> rw [hn] at h <;>
          simp only [bind, Except.bind, pure, Except.pure] at h
        · cases h
        · by_cases hle : n ≤ 2
          · rw [if_pos hle, if_pos hle] at h
            cases h; dsimp only; decide
          · rw [if_neg hle, if_neg hle] at h
            cases h; dsimp only; decide

theorem labor_pair (t : Transport) (c : String) :
    ((analyze_labor_issues t c).score, (analyze_labor_issues t c).risk) ∈
      [((50 : Int), "medium"), (35, "high"), (60, "medium"), (87, "low"), (84, "low")] := by
  unfold analyze_labor_issues
  dsimp only
  apply pyTry_mem
    (fun r : List String × Int × String =>
      (r.2.1, r.2.2) ∈
        [((50 : Int), "medium"), (35, "high"), (60, "medium"), (87, "low"), (84, "low")])
  · intro v hv
    have hm := laborTry_pair _ _ _ hv
    show v.2 ∈ _
    simp only [List.mem_cons, List.not_mem_nil, or_false] at hm ⊢
    tauto
  · decide

theorem cpfCadastralTry_pair (resp : FetchOutcome) (cpf : String)
    (v : Int × String × List String) (h : cpfCadastralTry resp cpf = Except.ok v) :
    (v.1, v.2.1) ∈ [((85 : Int), "low"), (60, "medium"), (75, "low")] := by
  unfold cpfCadastralTry at h
  rcases resp with ⟨status, text, json⟩ | _ <;> dsimp only at h
  · by_cases hs : status = 200
    · rw [if_pos hs] at h
      simp only [bind, Except.bind, pure, Except.pure] at h
      rcases hj : json with ⟨⟩ | d <;> rw [hj] at h <;>
        simp only [bind, Except.bind, pure, Except.pure] at h
      · cases h
      · rcases hg : jget d "situacao" with ⟨⟩ | sv <;> rw [hg] at h <;>
          simp only [bind, Except.bind, pure, Except.pure] at h
        · cases h
        · cases heq : jeqStr (sv.getD JVal.null) "regular" <;> rw [heq] at h <;>
            simp only [Bool.false_eq_true, ite_false, ite_true] at h <;>
            cases h <;> dsimp only <;> decide
    · rw [if_neg hs] at h
      cases h; dsimp only; decide
  · cases h

theorem cpfSanctionsTry_pair (resp : FetchOutcome)
    (v : Int × String × List String) (h : cpfSanctionsTry resp = Except.ok v) :
    (v.1, v.2.1) ∈ [((40 : Int), "high"), (90, "low"), (85, "low")] := by
  unfold cpfSanctionsTry at h
  rcases resp with ⟨status, text, json⟩ | _ <;> dsimp only at h
  · by_cases hs : status = 200
    · rw [if_pos hs] at h
      simp only [bind, Except.bind, pure, Except.pure] at h
      rcases hj : json with ⟨⟩ | d <;> rw [hj] at h <;>
        simp only [bind, Except.bind, pure, Except.pure] at h
      · cases h
      · cases ht : truthy d <;> rw [ht] at h <;>
          simp only [Bool.false_eq_true, ite_false, ite_true, bind, Except.bind,
            pure, Except.pure] at h
        · cases h; dsimp only; decide
        · rcases hn : jlen d with ⟨⟩ | n <;> rw [hn] at h <;>
            simp only [bind, Except.bind, pure, Except.pure] at h
          · cases h
          · by_cases hgt : n > 0
            · rw [if_pos hgt] at h
              cases h; dsimp only; decide
            · rw [if_neg hgt] at h
              cases h; dsimp only; decide
    · rw [if_neg hs] at h
      cases h; dsimp only; decide
  · cases h

theorem cpfCadinTry_pair (resp : FetchOutcome)
    (v : Int × String × List String) (h : cpfCadinTry resp = Except.ok v) :
    (v.1, v.2.1) ∈ [((45 : Int), "high"), (88, "low"), (82, "low")] := by
  unfold cpfCadinTry at h
  rcases resp with ⟨status, text, json⟩ | _ <;> dsimp only at h
  · by_cases hs : status = 200
    · rw [if_pos hs] at h
      simp only [bind, Except.bind, pure, Except.pure] at h
      rcases hj : json with ⟨⟩ | d <;> rw [hj] at h <;>
        simp only [bind, Except.bind, pure, Except.pure] at h
      · cases h
      · cases ht : truthy d <;> rw [ht] at h <;>
          simp only [Bool.false_eq_true, ite_false, ite_true, bind, Except.bind,
            pure, Except.pure] at h
        · cases h; dsimp only; decide
        · rcases hn : jlen d with ⟨⟩ | n <;> rw [hn] at h <;>
            simp only [bind, Except.bind, pure, Except.pure] at h
          · cases h
          · by_cases hgt : n > 0
            · rw [if_pos hgt] at h
              cases h; dsimp only; decide
            · rw [if_neg hgt] at h
              cases h; dsimp only; decide
    · rw [if_neg hs] at h
      cases h; dsimp only; decide
  · cases h

theorem cpfPepTry_pair (resp : FetchOutcome)
    (v : Int × String × List String) (h : cpfPepTry resp = Except.ok v) :
    (v.1, v.2.1) ∈ [((60 : Int), "medium"), (90, "low"), (85, "low")] := by
  unfold cpfPepTry at h
  rcases resp with ⟨status, text, json⟩ | _ <;> dsimp only at h
  · by_cases hs : status = 200
    · rw [if_pos hs] at h
      simp only [bind, Except.bind, pure, Except.pure] at h
      rcases hj : json with ⟨⟩ | d <;> rw [hj] at h <;>
        simp only [bind, Except.bind, pure, Except.pure] at h
      · cases h
      · cases ht : truthy d <;> rw [ht] at h <;>
          simp only [Bool.false_eq_true, ite_false, ite_true, bind, Except.bind,
            pure, Except.pure] at h
        · cases h; dsimp only; decide
        · rcases hn : jlen d with ⟨⟩ | n <;> rw [hn] at h <;>
            simp only [bind, Except.bind, pure, Except.pure] at h
          · cases h
          · by_cases hgt : n > 0
            · rw [if_pos hgt] at h
              cases h; dsimp only; decide
            · rw [if_neg hgt] at h
              cases h; dsimp only; decide
    · rw [if_neg hs] at h
      cases h; dsimp only; decide
  · cases h

theorem cpfCadastral_pair (t : Transport) (cpf : String) :
    ((cpfCadastral t cpf).1, (cpfCadastral t cpf).2.1) ∈
      [((85 : Int), "low"), (60, "medium"), (75, "low"), (70, "medium")] := by
  unfold cpfCadastral
  apply pyTry_mem
    (fun r : Int × String × List String =>
      (r.1, r.2.1) ∈ [((85 : Int), "low"), (60, "medium"), (75, "low"), (70, "medium")])
  · intro v hv
    have hm := cpfCadastralTry_pair _ _ _ hv
    simp only [List.mem_cons, List.not_mem_nil, or_false] at hm ⊢
    tauto
  · dsimp only; decide

theorem cpfSanctions_pair (t : Transport) (cpf : String) :
    ((cpfSanctions t cpf).1, (cpfSanctions t cpf).2.1) ∈
      [((40 : Int), "high"), (90, "low"), (85, "low"), (80, "low")] := by
  unfold cpfSanctions
  apply pyTry_mem
    (fun r : Int × String × List String =>
      (r.1, r.2.1) ∈ [((40 : Int), "high"), (90, "low"), (85, "low"), (80, "low")])
  · intro v hv
    have hm := cpfSanctionsTry_pair _ _ hv
    simp only [List.mem_cons, List.not_mem_nil, or_false] at hm ⊢
    tauto
  · dsimp only; decide

theorem cpfCadin_pair (t : Transport) (cpf : String) :
    ((cpfCadin t cpf).1, (cpfCadin t cpf).2.1) ∈
      [((45 : Int), "high"), (88, "low"), (82, "low"), (80, "low")] := by
  unfold cpfCadin
  apply pyTry_mem
    (fun r : Int × String × List String =>
      (r.1, r.2.1) ∈ [((45 : Int), "high"), (88, "low"), (82, "low"), (80, "low")])
  · intro v hv
    have hm := cpfCadinTry_pair _ _ hv
    simp only [List.mem_cons, List.not_mem_nil, or_false] at hm ⊢
    tauto
  · dsimp only; decide

theorem cpfPep_pair (t : Transport) (cpf : String) :
    ((cpfPep t cpf).1, (cpfPep t cpf).2.1) ∈
      [((60 : Int), "medium"), (90, "low"), (85, "low"), (82, "low")] := by
  unfold cpfPep
  apply pyTry_mem
    (fun r : Int × String × List String =>
      (r.1, r.2.1) ∈ [((60 : Int), "medium"), (90, "low"), (85, "low"), (82, "low")])
  · intro v hv
    have hm := cpfPepTry_pair _ _ hv
    simp only [List.mem_cons, List.not_mem_nil, or_false] at hm ⊢
    tauto
  · dsimp only; decide

/-! ## Supplementary-module lemmas and module-level invariants -/

/-- A module result that does not pair score 90 with risk high. -/
def no90High (m : ModuleResult) : Bool := !(m.score == 90 && m.risk == "high")

theorem mkSuppl_no90High (jit : Nat → Int) (i : Nat) (m : SupplMod)
    (f : Int → List String) (hf lf : List String) :
    no90High (mkSuppl jit i m f hf lf) = true := by
  unfold no90High mkSuppl
  dsimp only
  by_cases h75 : max 0 (min 100 (m.base_score + jit i)) > 75
  · rw [if_pos h75]
    rw [show (("low" : String) == "high") = false from rfl]
    simp
  · rw [if_neg h75]
    by_cases h50 : max 0 (min 100 (m.base_score + jit i)) > 50
    · rw [if_pos h50]
      rw [show (("medium" : String) == "high") = false from rfl]
      simp
    · rw [if_neg h50]
      have : max 0 (min 100 (m.base_score + jit i)) ≠ 90 := by omega
      simp [this]

/-- Under the actual jitter range of `random.randint(-15, 15)`, a
supplementary module with base score above 65 can never come out
high-risk. -/
theorem mkSuppl_not_high (jit : Nat → Int) (i : Nat) (m : SupplMod)
    (f : Int → List String) (hf lf : List String)
    (hbase : 66 ≤ m.base_score) (hj : -15 ≤ jit i) :
    ((mkSuppl jit i m f hf lf).risk == "high") = false := by
  unfold mkSuppl
  dsimp only
  have h1 : (50 : Int) < min 100 (m.base_score + jit i) :=
    lt_min_iff.mpr ⟨by omega, by omega⟩
  have h50 : (50 : Int) < max 0 (min 100 (m.base_score + jit i)) :=
    lt_max_iff.mpr (Or.inr h1)
  by_cases h75 : max 0 (min 100 (m.base_score + jit i)) > 75
  · rw [if_pos h75]; rfl
  · rw [if_neg h75, if_pos h50]; rfl

theorem pair_no90 {p : Int × String} {S : List (Int × String)} (hmem : p ∈ S)
    (hS : S.all (fun q => !(q.1 == 90 && q.2 == "high")) = true) :
    (!(p.1 == 90 && p.2 == "high")) = true :=
  List.all_eq_true.mp hS p hmem

/-! ## Concrete scenarios used by witnesses and counterexamples -/

/-- Jitter draw that is always 0 (a legal `randint(-15, 15)` outcome). -/
def zeroJit : Nat → Int := fun _ => 0

/-- Jitter draw that is always −15 (the lowest legal outcome). -/
def negJit : Nat → Int := fun _ => -15

/-- Transport of the end-to-end scenario: the registration source
returns `{situacao: ATIVA}`, the other two registries return empty
objects, and every list-shaped source returns an empty list. -/
def ativaCleanT : Transport := fun url =>
  if url = minhaUrl "00000000000191" then
    FetchOutcome.ok 200 "" (Except.ok (JVal.obj [("situacao", JVal.s "ATIVA")]))
  else if url = cnpjaUrl "00000000000191" then
    FetchOutcome.ok 200 "" (Except.ok (JVal.obj []))
  else if url = receitawsUrl "00000000000191" then
    FetchOutcome.ok 200 "" (Except.ok (JVal.obj []))
  else FetchOutcome.ok 200 "" (Except.ok (JVal.arr []))

/-- CPF transport: the registration lookup answers 404, every other
source answers 200 with an empty list. -/
def cpfNotFoundT : Transport := fun url =>
  if url = rfbCpfUrl "52998224725" then FetchOutcome.ok 404 "" (Except.ok JVal.null)
  else FetchOutcome.ok 200 "" (Except.ok (JVal.arr []))

/-- Jitter draws (−5 on the second supplementary module, 0 elsewhere),
all within the legal `randint(-15, 15)` range. -/
def oneLowJit : Nat → Int := fun n => if n = 1 then -5 else 0

/-- CPF transport: the registration lookup answers 200 with
`{situacao: regular}`, every other source answers 200 with an empty
list. -/
def cpfRegularT : Transport := fun url =>
  if url = rfbCpfUrl "52998224725" then
    FetchOutcome.ok 200 "" (Except.ok (JVal.obj [("situacao", JVal.s "regular")]))
  else FetchOutcome.ok 200 "" (Except.ok (JVal.arr []))

/-- Jitter draws −15, −15, −15, −15, −3, 0, … (all legal), chosen so
that the mean of the 15 module scores lands strictly between 80 and
80.5. -/
def meanEdgeJit : Nat → Int := fun n => if n < 4 then -15 else if n = 4 then -3 else 0

/-! ## C5 -/

/-- C5: for every run (any registry payload, any transport behaviour,
any jitter draws), the `modules` sequence of the produced CNPJ report
lists exactly the canonical module ids in the canonical order —
cadastral, sanctions, legal, fiscal, media, environmental, labor, then
the numbered supplementary modules — so the order is identical across
repeated runs and cannot depend on source completion timing. -/
theorem C5_canonical_module_order (d : Payload) (c : String) (t : Transport)
    (jit : Nat → Int) :
    (perform_cnpj_analysis d c t jit).map (fun r => r.modules.map (fun m => m.id)) =
    (perform_cnpj_analysis d c t jit).map (fun _ => cnpjCanonicalIds) := by
  rcases h : cadastralFindings d c with ⟨⟩ | cadF <;>
    unfold perform_cnpj_analysis <;> rw [h] <;> rfl

/-! ## C3 -/

/-- C3 (amended): in every CNPJ or CPF run, each emitted module's risk
is a deterministic function of the transport and jitter outcomes, and no
module output ever pairs score 90 with risk "high"; the score→risk
mapping is module-local, however, not one shared threshold function
(see the counterexample). -/
theorem C3_no_score90_high :
    (∀ (d : Payload) (c : String) (t : Transport) (jit : Nat → Int),
      (perform_cnpj_analysis d c t jit).map (fun r => r.modules.all no90High) =
      (perform_cnpj_analysis d c t jit).map (fun _ => true))
  ∧ (∀ (t : Transport) (jit : Nat → Int) (cpf : String),
      (perform_cpf_analysis t jit cpf).modules.all no90High = true) := by
  constructor
  · intro d c t jit
    rcases h : cadastralFindings d c with ⟨⟩ | cadF <;>
      unfold perform_cnpj_analysis <;> rw [h]
    · rfl
    · simp only [bind, Except.bind, pure, Except.pure, Except.map, Except.ok.injEq]
      rw [List.all_append]
      simp only [List.all_cons, Bool.and_eq_true]
      refine ⟨⟨?_, ?_, ?_, ?_, ?_, ?_, ?_, ?_⟩, ?_⟩
      · cases hc : jeqStr ((pget d "situacao").getD JVal.null) "ATIVA" <;>
          simp [no90High, hc]
      · exact pair_no90 (sanctions_pair t c) (by decide)
      · exact pair_no90 (legal_pair t c) (by decide)
      · exact pair_no90 (fiscal_pair t c) (by decide)
      · exact pair_no90 (media_pair t _) (by decide)
      · exact pair_no90 (env_pair t c) (by decide)
      · exact pair_no90 (labor_pair t c) (by decide)
      · rfl
      · rw [List.all_eq_true]
        intro x hx
        rcases List.mem_map.mp hx with ⟨p, hp, rfl⟩
        exact mkSuppl_no90High jit p.1 p.2 supplCnpjFindings _ _
  · intro t jit cpf
    unfold perform_cpf_analysis
    rw [List.all_append]
    simp only [List.all_cons, Bool.and_eq_true]
    refine ⟨⟨?_, ?_, ?_, ?_, ?_⟩, ?_⟩
    · exact pair_no90 (cpfCadastral_pair t cpf) (by decide)
    · exact pair_no90 (cpfSanctions_pair t cpf) (by decide)
    · exact pair_no90 (cpfCadin_pair t cpf) (by decide)
    · exact pair_no90 (cpfPep_pair t cpf) (by decide)
    · rfl
    · rw [List.all_eq_true]
      intro x hx
      rcases List.mem_map.mp hx with ⟨p, hp, rfl⟩
      exact mkSuppl_no90High jit p.1 p.2 supplCpfFindings _ _

/-- The (id, score, risk) triples of one concrete CPF run: registration
lookup 404, all other sources 200 with empty lists, second supplementary
jitter −5. -/
def c3Triples : List (String × Int × String) :=
  [("cadastral", 75, "low"), ("sanctions", 90, "low"), ("cadin", 88, "low"),
   ("pep", 90, "low"), ("criminal", 85, "low"), ("civil_processes", 75, "medium"),
   ("electoral", 90, "low"), ("financial", 75, "medium"), ("professional", 88, "low"),
   ("property", 82, "low"), ("social_media", 85, "low"), ("labor_issues", 90, "low"),
   ("tax_compliance", 78, "low"), ("behavioral", 83, "low"), ("risk_profile", 80, "low")]

/-- C3 counterexample: one concrete run emits the cadastral module with
(score 75, risk "low") and the civil-processes module with (score 75,
risk "medium"), so no single score→risk function covers all module
outputs — risk is not "the same mapping for every module". -/
theorem C3_no_single_mapping_counterexample :
    ((perform_cpf_analysis cpfNotFoundT oneLowJit "52998224725").modules.map
        (fun m => (m.id, m.score, m.risk)) = c3Triples)
  ∧ ¬ ∃ f : Int → String, ∀ p ∈ c3Triples, p.2.2 = f p.2.1 := by
  constructor
  · decide
  · rintro ⟨f, hf⟩
    have h1 := hf ("cadastral", 75, "low") (by decide)
    have h2 := hf ("civil_processes", 75, "medium") (by decide)
    dsimp only at h1 h2
    rw [← h1] at h2
    exact absurd h2 (by decide)

/-! ## C2 -/

/-- Reduction contract of a report, per the specification with the
`risk_level` thresholds read on the unrounded mean (which is what the
code compares): `overall_score = round(mean)`, `risk_level = low if
mean > 80 else medium if mean > 60 else high`, `total_findings = sum of
findings lengths`, `critical_issues = count of high-risk modules`. -/
def reduceMatches (rep : OverallReport) : Bool :=
  rep.overall_score ==
    pyRoundDiv ((rep.modules.map (fun m => m.score)).sum) rep.modules.length &&
  rep.risk_level ==
    (if meanGtB ((rep.modules.map (fun m => m.score)).sum) rep.modules.length 80 then "low"
     else if meanGtB ((rep.modules.map (fun m => m.score)).sum) rep.modules.length 60 then "medium"
     else "high") &&
  rep.total_findings == (rep.modules.map (fun m => m.findings.length)).sum &&
  rep.critical_issues == rep.modules.countP (fun m => m.risk == "high")

/-- C2 (amended): every produced report satisfies the reduction
formulas — `overall_score = round(mean of module scores)` (Python
banker's rounding), `total_findings = Σ len(findings)`,
`critical_issues = #(risk = high)` — with `risk_level` computed from
the unrounded mean (`mean > 80 → low`, `mean > 60 → medium`, else
high), not from the rounded `overall_score` as the claim words it. -/
theorem C2_reduce_formulas :
    (∀ (d : Payload) (c : String) (t : Transport) (jit : Nat → Int),
      (perform_cnpj_analysis d c t jit).map reduceMatches =
      (perform_cnpj_analysis d c t jit).map (fun _ => true))
  ∧ (∀ (t : Transport) (jit : Nat → Int) (cpf : String),
      reduceMatches (perform_cpf_analysis t jit cpf) = true) := by
  constructor
  · intro d c t jit
    rcases h : cadastralFindings d c with ⟨⟩ | cadF <;>
      unfold perform_cnpj_analysis <;> rw [h]
    · rfl
    · simp only [bind, Except.bind, pure, Except.pure, Except.map, Except.ok.injEq,
        reduceMatches, beq_self_eq_true, Bool.and_self, Bool.and_true, Bool.true_and]
  · intro t jit cpf
    simp only [perform_cpf_analysis, reduceMatches, beq_self_eq_true,
      Bool.and_self, Bool.and_true, Bool.true_and]

/-- C2 counterexample: a concrete run whose 15 module scores sum to
1206 has mean 80.4, so the code reports `risk_level = "low"` while the
claim's formula applied to the rounded `overall_score = 80` yields
"medium" — `risk_level` is not a function of the rounded score. -/
theorem C2_risk_level_counterexample :
    (perform_cpf_analysis cpfRegularT meanEdgeJit "52998224725").overall_score = 80
  ∧ (perform_cpf_analysis cpfRegularT meanEdgeJit "52998224725").risk_level = "low"
  ∧ (perform_cpf_analysis cpfRegularT meanEdgeJit "52998224725").risk_level ≠
      claimRiskFromRounded
        (perform_cpf_analysis cpfRegularT meanEdgeJit "52998224725").overall_score := by
  refine ⟨by decide, by decide, by decide⟩

/-! ## C1 -/

/-- C1 (amended): with a transport on which every external call fails,
both analysis runs still return a complete report whose `modules` list
carries all 15 canonical modules in order (no module is omitted and
nothing aborts), for every identifier and every jitter outcome. The
modules are not, however, all in a degraded state — see the
counterexample. -/
theorem C1_total_run_under_total_failure :
    (∀ (jit : Nat → Int) (c : String),
      (run_cnpj allErrT jit c).map (fun r => r.modules.map (fun m => m.id)) =
        Except.ok cnpjCanonicalIds)
  ∧ (∀ (jit : Nat → Int) (cpf : String),
      (perform_cpf_analysis allErrT jit cpf).modules.map (fun m => m.id) =
        cpfCanonicalIds) :=
  ⟨fun _ _ => rfl, fun _ _ => rfl⟩

/-- Transport on which every call succeeds with an empty JSON list —
the clean "no records found" upstream answer. -/
def emptyListOkT : Transport := fun _ =>
  FetchOutcome.ok 200 "" (Except.ok (JVal.arr []))

/-- C1 counterexample: when every source call fails, the sanctions
analyzer returns exactly the same result as under a fully successful
transport with empty sanction lists — score 90, risk "low", findings
"no sanctions found" — i.e. not a degraded state; and the full report
under total failure carries clean low-risk outputs for the sanctions,
legal, media, environmental and labor modules. -/
theorem C1_sanctions_not_degraded_counterexample :
    analyze_cnpj_sanctions allErrT "00000000000191" =
      analyze_cnpj_sanctions emptyListOkT "00000000000191"
  ∧ (analyze_cnpj_sanctions allErrT "00000000000191").score = 90
  ∧ (analyze_cnpj_sanctions allErrT "00000000000191").risk = "low"
  ∧ (run_cnpj allErrT zeroJit "00000000000191").map
      (fun r => r.modules.map (fun m => (m.score, m.risk))) =
      Except.ok [(45, "high"), (90, "low"), (85, "low"), (60, "medium"), (90, "low"),
                 (88, "low"), (87, "low"), (75, "medium"), (70, "medium"), (80, "low"),
                 (85, "low"), (88, "low"), (82, "low"), (77, "low"), (79, "low")] := by
  refine ⟨by decide, by decide, by decide, by decide⟩

/-! ## C4 -/

/-- C4 (amended): the shared source-client helper `fetch_with_timeout`
is non-throwing — for every URL, a transport error or timeout and every
non-2xx status produce the empty dict instead of an exception.  The
clients `check_un_sanctions` and `fetch_socios`, however, call
`raise_for_status` outside any `try` and do propagate such failures
(see the counterexample). -/
theorem C4_fetch_with_timeout_non_throwing (t : Transport) (url : String)
    (h : t url = FetchOutcome.err ∨
      ∃ status text json, t url = FetchOutcome.ok status text json ∧
        (status < 200 ∨ 300 ≤ status)) :
    fetch_with_timeout t url = JVal.obj [] := by
  unfold fetch_with_timeout
  rcases h with h | ⟨st, txt, j, h, hst⟩ <;> rw [h]
  dsimp only
  rw [if_neg (by omega : ¬ (200 ≤ st ∧ st < 300))]

theorem C4_fetch_with_timeout_non_throwing_witness :
    fetch_with_timeout allErrT "https://minhareceita.org/00000000000191" = JVal.obj [] :=
  C4_fetch_with_timeout_non_throwing allErrT
    "https://minhareceita.org/00000000000191" (Or.inl rfl)

/-- C4 counterexample: on a transport error both `check_un_sanctions`
and `fetch_socios` raise past their own boundary instead of returning a
Failed/empty result — their callers do need exception handling. -/
theorem C4_clients_throw_counterexample :
    check_un_sanctions allErrT "ACME CORP" = Except.error ()
  ∧ fetch_socios allErrT "00000000000191" = Except.error () :=
  ⟨rfl, rfl⟩

/-! ## C6 -/

/-- C6 (amended): the aggregation engine invokes the module analyzers
strictly sequentially in canonical order — in the invocation trace read
off the source's `await` structure, no two distinct analyzers have
overlapping invocation intervals; each analyzer is a pure function of
the identifier and the transport, so they cannot observe one another,
but they are not invoked concurrently. -/
theorem C6_sequential_invocation :
    seqInvokedB cnpjModuleTrace cnpjCanonicalIds = true := by decide

/-- C6 counterexample: the analyzers are not invoked concurrently — the
all-pairs-overlap predicate that concurrent invocation (gathering all
analyzer coroutines) would satisfy is false on the actual trace: each
analyzer completes before the next one starts. -/
theorem C6_not_concurrent_counterexample :
    concInvokedB cnpjModuleTrace cnpjCanonicalIds = false := by decide

/-! ## C7 -/

/-- C7: for every string of exactly 14 digits — if all digits are
identical the company validator returns false regardless of the
checksum; otherwise it returns true iff the last two digit characters
equal the check digits computed by the mod-11 weighted-sum algorithm
over the first 12 (then 13) digits. -/
theorem C7_cnpj_validator (s : String) (h14 : s.length = 14)
    (hd : ∀ c ∈ s.data, c.isDigit = true) :
    ((∀ c1 ∈ s.data, ∀ c2 ∈ s.data, c1 = c2) → is_valid_cnpj s = false)
  ∧ ((¬ ∀ c1 ∈ s.data, ∀ c2 ∈ s.data, c1 = c2) →
      (is_valid_cnpj s = true ↔
        s.data.drop 12 = [digitChar (cnpjDigit1 (s.data.map digitVal)),
                          digitChar (cnpjDigit2 (s.data.map digitVal))])) := by
  have hclean : clean_document s = s := by
    unfold clean_document
    rw [List.filter_eq_self.mpr hd]
  have hlen : s.length = 14 := h14
  have hnn : s.data ≠ [] := by
    intro hh
    rw [show s.length = s.data.length from rfl, hh] at h14
    simp at h14
  have hizd : is_valid_cnpj s =
      if s.data = List.replicate 14 (s.data.headD ' ') then false
      else decide (s.data.drop 12 = [digitChar (cnpjDigit1 (s.data.map digitVal)),
                                     digitChar (cnpjDigit2 (s.data.map digitVal))]) := by
    unfold is_valid_cnpj
    rw [hclean]
    rw [if_neg (by rw [hlen]; simp)]
  have hsame : (s.data = List.replicate 14 (s.data.headD ' ')) ↔
      (∀ c1 ∈ s.data, ∀ c2 ∈ s.data, c1 = c2) := by
    constructor
    · intro hrep c1 hc1 c2 hc2
      have h1 := List.eq_of_mem_replicate (hrep ▸ hc1)
      have h2 := List.eq_of_mem_replicate (hrep ▸ hc2)
      rw [h1, h2]
    · intro hall
      have hl : s.data.length = 14 := h14
      have hh : s.data.headD ' ' ∈ s.data := by
        rcases hsd : s.data with _ | ⟨a, rest⟩
        · exact absurd hsd hnn
        · exact List.mem_cons_self _ _
      rw [← hl]
      exact List.eq_replicate_length.mpr (fun b hb => hall b hb _ hh)
  constructor
  · intro hall
    rw [hizd, if_pos (hsame.mpr hall)]
  · intro hnall
    rw [hizd, if_neg (fun hrep => hnall (hsame.mp hrep))]
    exact decide_eq_true_iff

theorem C7_cnpj_validator_witness :
    is_valid_cnpj "00000000000191" = true :=
  ((C7_cnpj_validator "00000000000191" (by decide) (by decide)).2
      (by decide)).mpr (by decide)

/-! ## C8 -/

theorem mkSuppl_not_high_not (jit : Nat → Int) (i : Nat) (m : SupplMod)
    (f : Int → List String) (hf lf : List String)
    (hbase : 66 ≤ m.base_score) (hj : -15 ≤ jit i) :
    ¬ ((mkSuppl jit i m f hf lf).risk == "high") = true := by
  rw [mkSuppl_not_high jit i m f hf lf hbase hj]
  exact Bool.false_ne_true

/-- C8 (amended): for identifier "00000000000191" with the registration
source answering `{situacao: ATIVA}` and all sanctions/legal sources
clean/empty, the analysis always reports `critical_issues = 0` (for
every legal jitter outcome), and reports `risk_level = "low"` for the
zero-jitter outcome; extreme negative jitter can push the mean to
"medium" (see the counterexample). -/
theorem C8_ativa_scenario (jit : Nat → Int) (hj : ∀ i, -15 ≤ jit i) :
    (run_cnpj ativaCleanT jit "00000000000191").map (fun r => r.critical_issues) =
      Except.ok 0
  ∧ (run_cnpj ativaCleanT zeroJit "00000000000191").map (fun r => r.risk_level) =
      Except.ok "low" := by
  constructor
  · have hf : fetch_cnpj ativaCleanT "00000000000191" =
        Except.ok [("situacao", JVal.s "ATIVA"), ("cnpj", JVal.s "00000000000191")] := rfl
    unfold run_cnpj
    rw [hf]
    simp only [bind, Except.bind]
    rcases h : cadastralFindings
        [("situacao", JVal.s "ATIVA"), ("cnpj", JVal.s "00000000000191")]
        "00000000000191" with u | cadF
    · cases u
      exact absurd h (by decide)
    · unfold perform_cnpj_analysis
      rw [h]
      simp only [bind, Except.bind, pure, Except.pure, Except.map, Except.ok.injEq]
      rw [List.countP_eq_zero]
      intro m hm
      rcases List.mem_append.mp hm with hm | hm
      · simp only [List.mem_cons, List.not_mem_nil, or_false] at hm
        rcases hm with rfl | rfl | rfl | rfl | rfl | rfl | rfl <;>
          exact fun hc => Bool.noConfusion (show false = true from hc)
      · rcases List.mem_map.mp hm with ⟨q, hq, rfl⟩
        exact mkSuppl_not_high_not jit q.1 q.2 supplCnpjFindings _ _
          (by fin_cases hq <;> decide) (hj q.1)
  · decide

theorem C8_ativa_scenario_witness :
    (run_cnpj ativaCleanT zeroJit "00000000000191").map (fun r => r.critical_issues) =
      Except.ok 0
  ∧ (run_cnpj ativaCleanT zeroJit "00000000000191").map (fun r => r.risk_level) =
      Except.ok "low" :=
  C8_ativa_scenario zeroJit (fun i => by unfold zeroJit; decide)

/-- C8 counterexample: in the very same scenario, the legal jitter
outcome −15 on every supplementary draw yields `risk_level = "medium"`
(mean 1126/15 ≈ 75.1), so `risk_level = "low"` is not guaranteed by the
scenario — it depends on the randomized supplementary scores.
`critical_issues = 0` still holds. -/
theorem C8_jitter_risk_counterexample :
    (run_cnpj ativaCleanT negJit "00000000000191").map
      (fun r => (r.risk_level, r.critical_issues)) = Except.ok ("medium", 0) := by
  decide

/-! ## C9 and C10: the cadastral merge -/

theorem pget_none_of_any_false (d : Payload) (k : String)
    (h : d.any (fun kv => kv.1 = k) = false) : pget d k = none := by
  induction d with
  | nil => rfl
  | cons kv rest ih =>
    simp only [List.any_cons, Bool.or_eq_false_iff] at h
    unfold pget
    rw [ih h.2]
    simp only [decide_eq_false_iff_not] at h
    rw [if_neg h.1]

theorem map_setEntry_id (d : Payload) (k : String) (v : JVal)
    (h : d.any (fun kv => kv.1 = k) = false) :
    d.map (fun kv => if kv.1 = k then (k, v) else kv) = d := by
  induction d with
  | nil => rfl
  | cons kv rest ih =>
    simp only [List.any_cons, Bool.or_eq_false_iff] at h
    simp only [List.map_cons, ih h.2]
    have h1 := h.1
    simp only [decide_eq_false_iff_not] at h1
    rw [if_neg h1]

theorem pget_map_ne (d : Payload) (k : String) (v : JVal) (k2 : String) (hne : k ≠ k2) :
    pget (d.map (fun kv => if kv.1 = k then (k, v) else kv)) k2 = pget d k2 := by
  induction d with
  | nil => rfl
  | cons kv rest ih =>
    simp only [List.map_cons]
    unfold pget
    rw [ih]
    cases hr : pget rest k2
    · by_cases hk : kv.1 = k
      · rw [if_pos hk]
        dsimp only
        rw [if_neg hne, if_neg (by rw [hk]; exact hne)]
      · rw [if_neg hk]
    · rfl

theorem pget_map_eq (d : Payload) (k : String) (v : JVal)
    (hany : d.any (fun kv => kv.1 = k) = true) :
    pget (d.map (fun kv => if kv.1 = k then (k, v) else kv)) k = some v := by
  induction d with
  | nil => cases hany
  | cons kv rest ih =>
    simp only [List.map_cons]
    unfold pget
    by_cases hr : rest.any (fun kv => kv.1 = k) = true
    · rw [ih hr]
    · have hrf : rest.any (fun kv => kv.1 = k) = false := by
        cases hq : rest.any (fun kv => kv.1 = k)
        · rfl
        · exact absurd hq hr
      rw [map_setEntry_id rest k v hrf, pget_none_of_any_false rest k hrf]
      simp only [List.any_cons, Bool.or_eq_true] at hany
      have hkv : kv.1 = k := by
        rcases hany with h1 | h1
        · simpa using h1
        · rw [h1] at hrf; cases hrf
      rw [if_pos hkv]
      dsimp only
      rw [if_pos rfl]

theorem pget_append_single (d : Payload) (k : String) (v : JVal) (k2 : String) :
    pget (d ++ [(k, v)]) k2 = if k = k2 then some v else pget d k2 := by
  induction d with
  | nil =>
    by_cases hk : k = k2 <;> simp [pget, hk]
  | cons kv rest ih =>
    simp only [List.cons_append]
    unfold pget
    rw [ih]
    by_cases hk : k = k2
    · rw [if_pos hk, if_pos hk]
    · rw [if_neg hk, if_neg hk]

theorem pget_setKey (d : Payload) (k : String) (v : JVal) (k2 : String) :
    pget (setKey d k v) k2 = if k = k2 then some v else pget d k2 := by
  unfold setKey
  by_cases hany : d.any (fun kv => kv.1 = k) = true
  · rw [if_pos hany]
    by_cases hk : k = k2
    · subst hk
      rw [if_pos rfl, pget_map_eq d k v hany]
    · rw [if_neg hk, pget_map_ne d k v k2 hk]
  · rw [if_neg hany, pget_append_single]

theorem pget_cons (kv : String × JVal) (rest : Payload) (k : String) :
    pget (kv :: rest) k =
      match pget rest k with
      | some v => some v
      | none => if kv.1 = k then some kv.2 else none := rfl

theorem pget_updateDict (q p : Payload) (k : String) :
    pget (updateDict p q) k =
      match pget q k with
      | some v => some v
      | none => pget p k := by
  induction q generalizing p with
  | nil => rfl
  | cons kv rest ih =>
    show pget (updateDict (setKey p kv.1 kv.2) rest) k = _
    rw [ih, pget_cons]
    cases hr : pget rest k
    · dsimp only
      rw [pget_setKey]
      by_cases hk : kv.1 = k
      · rw [if_pos hk, if_pos hk]
      · rw [if_neg hk, if_neg hk]
    · rfl

theorem sched_foldl_get {T : Type} (tasks : List T) (arrival : List Nat)
    (s0 : List (Option T)) (i : Nat) :
    (arrival.foldl (fun slots j => slots.set j (tasks.get? j)) s0).get? i =
      if i ∈ arrival ∧ i < s0.length then some (tasks.get? i) else s0.get? i := by
  induction arrival generalizing s0 with
  | nil => simp
  | cons j rest ih =>
    show ((rest.foldl (fun slots j => slots.set j (tasks.get? j))
        (s0.set j (tasks.get? j))).get? i) = _
    rw [ih]
    rw [List.length_set]
    by_cases hmem : i ∈ rest
    · by_cases hlt : i < s0.length
      · rw [if_pos ⟨hmem, hlt⟩, if_pos ⟨List.mem_cons_of_mem _ hmem, hlt⟩]
      · rw [if_neg (fun hc => hlt hc.2), if_neg (fun hc => hlt hc.2)]
        by_cases hij : i = j
        · subst hij
          rw [List.set_eq_of_length_le (by omega)]
        · rw [List.get?_set_ne _ _ (fun hc => hij hc.symm)]
    · by_cases hij : i = j
      · subst hij
        by_cases hlt : i < s0.length
        · rw [if_neg (fun hc => hmem hc.1)]
          rw [List.get?_set_eq_of_lt _ hlt]
          rw [if_pos ⟨List.mem_cons_self _ _, hlt⟩]
        · rw [if_neg (fun hc => hmem hc.1), if_neg (fun hc => hlt hc.2)]
          rw [List.set_eq_of_length_le (by omega)]
      · rw [if_neg (fun hc => hmem hc.1)]
        rw [List.get?_set_ne _ _ (fun hc => hij hc.symm)]
        rw [if_neg (fun hc => (List.mem_cons.mp hc.1).elim (fun h => hij h) hmem)]

theorem gatherSched_all (tasks : List (Except Unit JVal)) (arrival : List Nat)
    (hcov : ∀ i, i < tasks.length → i ∈ arrival) :
    gatherSched tasks arrival = tasks.map some := by
  apply List.ext
  intro i
  unfold gatherSched
  rw [sched_foldl_get, List.length_replicate]
  by_cases hlt : i < tasks.length
  · rw [if_pos ⟨hcov i hlt, hlt⟩]
    cases hx : tasks.get? i with
    | none =>
      rw [List.get?_eq_none] at hx
      omega
    | some x =>
      rw [List.get?_map, hx]
      rfl
  · rw [if_neg (fun hc => hlt hc.2)]
    rw [List.get?_len_le (by rw [List.length_replicate]; omega)]
    rw [List.get?_len_le (by rw [List.length_map]; omega)]

theorem fetch_cnpj_sched_eq (t : Transport) (c : String) (arrival : List Nat)
    (h0 : 0 ∈ arrival) (h1 : 1 ∈ arrival) (h2 : 2 ∈ arrival) :
    fetch_cnpj_sched t c arrival = fetch_cnpj t c := by
  unfold fetch_cnpj_sched fetch_cnpj
  dsimp only
  rw [gatherSched_all ((cadastroUrls c).map (fetch_json t)) arrival]
  · rw [List.map_map]
    have : ((fun o => o.getD (Except.error ())) ∘ some :
        Except Unit JVal → Except Unit JVal) = fun x => x := rfl
    rw [this, List.map_id']
  · intro i hi
    rw [List.length_map] at hi
    have h3 : (cadastroUrls c).length = 3 := rfl
    rw [h3] at hi
    interval_cases i <;> assumption

theorem foldlM_mergeStep_eq_foldl (rs : List (Except Unit JVal)) (a d : Payload)
    (h : rs.foldlM mergeStep a = Except.ok d) :
    d = rs.foldl specMergeStep a := by
  induction rs generalizing a with
  | nil =>
    simp only [List.foldlM_nil] at h
    cases h
    rfl
  | cons r rest ih =>
    rw [List.foldlM_cons] at h
    rw [List.foldl_cons]
    rcases r with u | j
    · simp only [mergeStep, bind, Except.bind] at h
      simp only [specMergeStep]
      exact ih a h
    · rcases j with v | n | b | _ | vs | kvs <;>
        simp only [mergeStep, bind, Except.bind] at h <;>
        simp only [specMergeStep]
      · cases h
      · cases h
      · cases h
      · cases h
      · cases h
      · exact ih _ h

/-- C9: the multi-registry cadastral merge is deterministic — the
result is invariant under the network completion schedule (any arrival
order covering all three tasks), equals the specification's canonical
shallow merge (successful payloads folded in canonical source order,
failures contributing nothing) with the input identifier written into
`cnpj` last, and the underlying dict update is last-writer-wins per
overlapping key. -/
theorem C9_merge_deterministic (t : Transport) (c : String) (arrival : List Nat)
    (h0 : 0 ∈ arrival) (h1 : 1 ∈ arrival) (h2 : 2 ∈ arrival) :
    fetch_cnpj_sched t c arrival = fetch_cnpj t c
  ∧ (∀ d, fetch_cnpj t c = Except.ok d →
      d = setKey (specMergeCadastral ((cadastroUrls c).map (fetch_json t)))
            "cnpj" (JVal.s c))
  ∧ (∀ (p q : Payload) (k : String),
      pget (updateDict p q) k =
        match pget q k with
        | some v => some v
        | none => pget p k) := by
  refine ⟨fetch_cnpj_sched_eq t c arrival h0 h1 h2, ?_, fun p q k => pget_updateDict q p k⟩
  intro d hd
  unfold fetch_cnpj at hd
  dsimp only at hd
  rcases hm : ((cadastroUrls c).map (fetch_json t)).foldlM mergeStep [] with u | d0
  · rw [hm] at hd
    simp only [bind, Except.bind] at hd
    cases hd
  · rw [hm] at hd
    simp only [bind, Except.bind, pure, Except.pure, Except.ok.injEq] at hd
    subst hd
    unfold specMergeCadastral
    rw [← foldlM_mergeStep_eq_foldl _ _ _ hm]

/-- C10: whenever the combined cadastral fetch returns a merged
payload, that payload maps the key "cnpj" to the input identifier —
the input value overwrites anything an upstream payload carried, and
the key is present even when everything else failed. -/
theorem C10_merged_payload_has_cnpj_key (t : Transport) (c : String) (d : Payload)
    (h : fetch_cnpj t c = Except.ok d) :
    pget d "cnpj" = some (JVal.s c) := by
  unfold fetch_cnpj at h
  dsimp only at h
  rcases hm : ((cadastroUrls c).map (fetch_json t)).foldlM mergeStep [] with u | d0
  · rw [hm] at h
    simp only [bind, Except.bind] at h
    cases h
  · rw [hm] at h
    simp only [bind, Except.bind, pure, Except.pure, Except.ok.injEq] at h
    subst h
    rw [pget_setKey]
    simp

/-- Transport with two succeeding registries (an overlapping key "a")
and one failing registry. -/
def twoRegistryT : Transport := fun url =>
  if url = minhaUrl "00000000000191" then
    FetchOutcome.ok 200 "" (Except.ok (JVal.obj [("a", JVal.s "1"), ("b", JVal.s "x")]))
  else if url = receitawsUrl "00000000000191" then
    FetchOutcome.ok 200 "" (Except.ok (JVal.obj [("a", JVal.s "2")]))
  else FetchOutcome.err

theorem C9_merge_deterministic_witness :
    fetch_cnpj_sched twoRegistryT "00000000000191" [2, 1, 0] =
      fetch_cnpj twoRegistryT "00000000000191" :=
  (C9_merge_deterministic twoRegistryT "00000000000191" [2, 1, 0]
    (by decide) (by decide) (by decide)).1

theorem C10_merged_payload_has_cnpj_key_witness :
    pget [("cnpj", JVal.s "12345678000195")] "cnpj" =
      some (JVal.s "12345678000195") :=
  C10_merged_payload_has_cnpj_key allErrT "12345678000195"
    [("cnpj", JVal.s "12345678000195")] rfl
